import Mathlib

/-!
Verification development for the Beckn energy-trading client of this
repository (`src/beckn/utils.py`, `src/beckn/api_client.py`,
`src/agents/prosumer_energy_agent.py`).

The Python code is shallowly embedded: parsed JSON values and Python
dicts/lists are modelled by the inductive type `PyValue` (dict keys are
modelled as strings — every key the code ever builds or reads is a string
literal), Python floats are modelled as exact rationals, and code that can
raise is modelled in the exception monad `Py` (`Except PyErr`).  Each
embedded definition mirrors one function of the source, with the same
field order, the same defaults and the same evaluation order of the
fallible sub-expressions.
-/

/-- Model of a parsed-JSON / Python value as manipulated by the extractors. -/
inductive PyValue where
  | null
  | bool (b : Bool)
  | num (q : ℚ)
  | str (s : String)
  | arr (elts : List PyValue)
  | obj (fields : List (String × PyValue))
deriving Inhabited

/-- Exceptions that the embedded Python fragments can raise. -/
inductive PyErr where
  | typeError
  | attributeError
  | indexError
  | keyError
  | valueError
deriving Repr, DecidableEq

/-- Computation that may raise a Python exception. -/
abbrev Py (α : Type) := Except PyErr α

/-- First-match association-list lookup: model of `d[k]` presence in a Python
dict (dict keys are unique, so first match is the match). -/
def assocLookup (kvs : List (String × PyValue)) (k : String) : Option PyValue :=
  match kvs with
  | [] => none
  | (k1, v) :: rest => if k1 = k then some v else assocLookup rest k

/-- Model of `d[k] = v` on a Python dict: an existing key keeps its position
and gets the new value (last write wins), a fresh key is appended. -/
def assocSet (kvs : List (String × PyValue)) (k : String) (v : PyValue) :
    List (String × PyValue) :=
  match kvs with
  | [] => [(k, v)]
  | (k1, v1) :: rest =>
    if k1 = k then (k, v) :: rest else (k1, v1) :: assocSet rest k v

/-- Python truthiness of a value (`bool(v)`). -/
def PyValue.truthy : PyValue → Bool
  | .null => false
  | .bool b => b
  | .num q => decide (q ≠ 0)
  | .str s => !s.isEmpty
  | .arr l => !l.isEmpty
  | .obj kvs => !kvs.isEmpty

/-- Model of `v.get(k, d)`: defaulting dict lookup; on a non-dict the
attribute `get` does not exist, so Python raises `AttributeError`. -/
def pyGetD (v : PyValue) (k : String) (d : PyValue) : Py PyValue :=
  match v with
  | .obj kvs => .ok ((assocLookup kvs k).getD d)
  | _ => .error .attributeError

/-- Model of `v.get(k)` (default `None`). -/
def pyGet (v : PyValue) (k : String) : Py PyValue :=
  pyGetD v k .null

/-- Does the character list `l` start with `pre`? -/
def leadsWith (pre l : List Char) : Bool :=
  match pre, l with
  | [], _ => true
  | _ :: _, [] => false
  | p :: ps, c :: cs => p == c && leadsWith ps cs

/-- Does `hay` contain `sub` as a contiguous sub-list? -/
def containsSubAux (hay sub : List Char) : Bool :=
  match hay with
  | [] => sub.isEmpty
  | _ :: rest => leadsWith sub hay || containsSubAux rest sub

/-- Model of Python's `sub in s` on strings: substring containment. -/
def strContainsSub (s sub : String) : Bool :=
  containsSubAux s.data sub.data

/-- Model of `k in v` for a string `k`: key membership for dicts, element
equality for lists, substring test for strings, `TypeError` otherwise. -/
def pyContainsStr (v : PyValue) (k : String) : Py Bool :=
  match v with
  | .obj kvs => .ok (assocLookup kvs k).isSome
  | .arr l => .ok (l.any fun x => match x with | .str s => s == k | _ => false)
  | .str s => .ok (strContainsSub s k)
  | _ => .error .typeError

/-- Model of subscription `v[k]` with a string key: `KeyError` on a missing
dict key, `TypeError` on non-dict values. -/
def pySubscript (v : PyValue) (k : String) : Py PyValue :=
  match v with
  | .obj kvs =>
    match assocLookup kvs k with
    | some x => .ok x
    | none => .error .keyError
  | _ => .error .typeError

/-- Model of indexing `v[i]` with a small non-negative integer literal. -/
def pyIndex (v : PyValue) (i : Nat) : Py PyValue :=
  match v with
  | .arr l =>
    match l.get? i with
    | some x => .ok x
    | none => .error .indexError
  | .str s =>
    match s.data.get? i with
    | some c => .ok (.str (String.mk [c]))
    | none => .error .indexError
  | .obj _ => .error .keyError
  | _ => .error .typeError

/-- Model of `for x in v`: lists yield elements, dicts yield their keys,
strings yield one-character strings, anything else raises `TypeError`. -/
def pyIter (v : PyValue) : Py (List PyValue) :=
  match v with
  | .arr l => .ok l
  | .obj kvs => .ok (kvs.map fun p => .str p.1)
  | .str s => .ok (s.data.map fun c => .str (String.mk [c]))
  | _ => .error .typeError

/-- Characters stripped by Python's `str.strip()` with no argument. -/
def isPyWhitespace (c : Char) : Bool :=
  c == ' ' || c == '\t' || c == '\n' || c == '\r' || c == '\x0b' || c == '\x0c'

/-- Model of `s.strip()`. -/
def pyStrip (s : String) : String :=
  String.mk (((s.data.dropWhile isPyWhitespace).reverse.dropWhile isPyWhitespace).reverse)

/-- Fuel-driven core of `str.replace`: replaces every non-overlapping
occurrence of `old` left to right.  The fuel is the input length, which is
always enough since each step consumes at least one character. -/
def replaceFuel (old new : List Char) : Nat → List Char → List Char
  | 0, l => l
  | _ + 1, [] => []
  | fuel + 1, c :: rest =>
    if !old.isEmpty && leadsWith old (c :: rest) then
      new ++ replaceFuel old new fuel (List.drop (old.length - 1) rest)
    else
      c :: replaceFuel old new fuel rest

/-- Model of `s.replace(old, new)` for a non-empty `old` (the source only
ever replaces the non-empty literal "USD/kWH"; an empty `old` is left as a
no-op here rather than modelling Python's everywhere-insertion). -/
def pyReplace (s old new : String) : String :=
  String.mk (replaceFuel old.data new.data s.data.length s.data)

/-- ASCII lowercase of one character. -/
def charLower (c : Char) : Char :=
  if 'A' ≤ c && c ≤ 'Z' then Char.ofNat (c.toNat + 32) else c

/-- Model of `s.lower()` (the source only lowercases ASCII display
names). -/
def pyLower (s : String) : String :=
  String.mk (s.data.map charLower)

/-- Numeric value of a decimal digit character, if it is one. -/
def digitVal (c : Char) : Option Nat :=
  if c.isDigit then some (c.toNat - 48) else none

/-- Parse a non-empty all-digit character list into a natural number. -/
def parseDigits (l : List Char) : Option Nat :=
  match l with
  | [] => none
  | _ =>
    l.foldl (fun acc c =>
      match acc, digitVal c with
      | some n, some d => some (10 * n + d)
      | _, _ => none) (some 0)

/-- Split a character list at the first occurrence of a separator
character: contents before it, and (when present) contents after it. -/
def splitAtChar (sep : Char) : List Char → List Char × Option (List Char)
  | [] => ([], none)
  | c :: rest =>
    if c == sep then ([], some rest)
    else
      let r := splitAtChar sep rest
      (c :: r.1, r.2)

/-- Rational power of ten computed through `Nat` so that concrete values
reduce by computation. -/
def pow10 (n : Nat) : ℚ :=
  ((10 ^ n : ℕ) : ℚ)

/-- Parse the mantissa part `digits [. digits]` / `. digits` of a Python
float literal (at least one digit overall). -/
def parseMantissa (l : List Char) : Option ℚ :=
  let p := splitAtChar '.' l
  match p.2 with
  | none => (parseDigits p.1).map fun n => (n : ℚ)
  | some frac =>
    if p.1.isEmpty && frac.isEmpty then none
    else if frac.isEmpty then (parseDigits p.1).map fun n => (n : ℚ)
    else if p.1.isEmpty then
      (parseDigits frac).map fun f => (f : ℚ) / pow10 frac.length
    else
      match parseDigits p.1, parseDigits frac with
      | some n, some f => some ((n : ℚ) + (f : ℚ) / pow10 frac.length)
      | _, _ => none

/-- Parse an optionally signed exponent (digit count at least one). -/
def parseExponent (l : List Char) : Option ℤ :=
  match l with
  | '+' :: rest => (parseDigits rest).map fun n => (n : ℤ)
  | '-' :: rest => (parseDigits rest).map fun n => -(n : ℤ)
  | _ => (parseDigits l).map fun n => (n : ℤ)

/-- Model of Python's `float(s)` string parsing, restricted to finite
decimal literals `[sign] digits [. digits] [e [sign] digits]` (the
`inf`/`nan` spellings and digit underscores never occur in this code
base's data and are treated as parse failures).  Surrounding whitespace
is accepted, as in Python. -/
def pyFloatOfString (s : String) : Option ℚ :=
  let l := (pyStrip s).data
  let (sign, body) :=
    match l with
    | '+' :: rest => ((1 : ℚ), rest)
    | '-' :: rest => ((-1 : ℚ), rest)
    | _ => ((1 : ℚ), l)
  let p := splitAtChar 'e' body
  let p :=
    match p.2 with
    | none => splitAtChar 'E' body
    | some _ => p
  match p.2 with
  | none => (parseMantissa body).map fun m => sign * m
  | some ex =>
    match parseMantissa p.1, parseExponent ex with
    | some m, some e =>
      some (if 0 ≤ e then sign * m * pow10 e.toNat
        else sign * m / pow10 (-e).toNat)
    | _, _ => none

/-- Model of Python's `float(v)` builtin on an arbitrary value: numbers pass
through, booleans become 0 or 1, strings are parsed (raising `ValueError`
when unparsable), anything else raises `TypeError`. -/
def pyFloat (v : PyValue) : Py ℚ :=
  match v with
  | .num q => .ok q
  | .bool b => .ok (if b then 1 else 0)
  | .str s =>
    match pyFloatOfString s with
    | some q => .ok q
    | none => .error .valueError
  | _ => .error .typeError

/-- Model of `s.lower()` applied to a dynamically typed value, raising
`AttributeError` on non-strings. -/
def pyLowerV (v : PyValue) : Py String :=
  match v with
  | .str s => .ok (pyLower s)
  | _ => .error .attributeError

/-- Dynamic dict keys: the source only ever uses string-valued keys, so
non-string keys are modelled as a type error of the embedding. -/
def pyKeyToString (v : PyValue) : Py String :=
  match v with
  | .str s => .ok s
  | _ => .error .typeError

/-- Model of `len(v)`. -/
def pyLen (v : PyValue) : Py Nat :=
  match v with
  | .arr l => .ok l.length
  | .str s => .ok s.data.length
  | .obj kvs => .ok kvs.length
  | _ => .error .typeError

/-- Embeds the image sub-expression shared by the catalog extractors
(e.g. `src/beckn/utils.py:78`): the conditional guard
`item.get("descriptor", {}).get("images")` is evaluated first; only when it
is truthy is `...get("images", [{}])[0].get("url", "")` evaluated. -/
def extractImage (v : PyValue) : Py PyValue := do
  let desc ← pyGetD v "descriptor" (.obj [])
  let imgsTest ← pyGet desc "images"
  if imgsTest.truthy then do
    let imgs ← pyGetD desc "images" (.arr [.obj []])
    let first ← pyIndex imgs 0
    pyGetD first "url" (.str "")
  else pure (.str "")

/-- One `tag_item` of the description-keyed tag loop shared by the
`utils.py` extractors (`src/beckn/utils.py:91-96`): the inner key is the
entry descriptor's `description`, falling back to its `code` (Python `or`);
entries whose key or value is falsy are skipped; assignment into the dict
is last-write-wins. -/
def tagEntryStepDesc (tv : List (String × PyValue)) (tag_item : PyValue) :
    Py (List (String × PyValue)) := do
  let item_desc ← pyGetD tag_item "descriptor" (.obj [])
  let keyD ← pyGetD item_desc "description" (.str "")
  let keyC ← pyGetD item_desc "code" (.str "")
  let key := if keyD.truthy then keyD else keyC
  let value ← pyGet tag_item "value"
  if key.truthy && value.truthy then do
    let ks ← pyKeyToString key
    pure (assocSet tv ks value)
  else pure tv

/-- One tag group of the description-keyed tag loop
(`src/beckn/utils.py:85-99`): a group whose descriptor has no truthy
`description` is skipped entirely (there is no fallback to `code` for the
outer key); a group whose collected `tag_values` dict is empty is also not
recorded. -/
def tagGroupStepDesc (acc : List (String × PyValue)) (tag : PyValue) :
    Py (List (String × PyValue)) := do
  let tdesc ← pyGetD tag "descriptor" (.obj [])
  let tag_desc ← pyGet tdesc "description"
  if !tag_desc.truthy then pure acc
  else do
    let listV ← pyGetD tag "list" (.arr [])
    let entries ← pyIter listV
    let tag_values ← entries.foldlM tagEntryStepDesc []
    if !tag_values.isEmpty then do
      let ks ← pyKeyToString tag_desc
      pure (assocSet acc ks (.obj tag_values))
    else pure acc

/-- The description-keyed tag extraction of an item, shared verbatim by
`extract_subsidies_from_response`, `extract_installers_from_response`,
`extract_energy_programs_from_response` and the `utils.py`
`extract_energy_trading_opportunities`. -/
def extractTagsDesc (item : PyValue) : Py (List (String × PyValue)) := do
  let tagsV ← pyGetD item "tags" (.arr [])
  let tags ← pyIter tagsV
  tags.foldlM tagGroupStepDesc []

/-- The response-level traversal shared by every catalog extractor
(`src/beckn/utils.py:52-60` and `src/beckn/api_client.py:481-489`):
falsy responses and responses without a `message` key are skipped, and the
providers of `message.catalog.providers` (each level defaulting to empty)
are folded with the extractor-specific provider step. -/
def catalogResponseStep (providerStep : List PyValue → PyValue → Py (List PyValue))
    (acc : List PyValue) (resp : PyValue) : Py (List PyValue) :=
  if !resp.truthy then pure acc
  else do
    let hasMsg ← pyContainsStr resp "message"
    if !hasMsg then pure acc
    else do
      let message ← pyGetD resp "message" (.obj [])
      let catalog ← pyGetD message "catalog" (.obj [])
      let providersV ← pyGetD catalog "providers" (.arr [])
      let providers ← pyIter providersV
      providers.foldlM providerStep acc

/-- The top-level guard and `responses` traversal shared by every catalog
extractor: a falsy input or one not containing the key `responses` yields
the empty list (the source also logs a warning, which has no modelled
effect). -/
def extractCatalogTop (providerStep : List PyValue → PyValue → Py (List PyValue))
    (rd : PyValue) : Py (List PyValue) :=
  if !rd.truthy then pure []
  else do
    let c ← pyContainsStr rd "responses"
    if !c then pure []
    else do
      let v ← pyGetD rd "responses" (.arr [])
      let resps ← pyIter v
      resps.foldlM (catalogResponseStep providerStep) []

/-- One item of `extract_subsidies_from_response`
(`src/beckn/utils.py:68-101`): note the unconditional `[0]` on
`provider.get("fulfillments", [])`, evaluated at the `fulfillment_id`
position of the dict literal (after the `id` lookup). -/
def subsidiesItemStep (provider provider_id provider_name provider_desc : PyValue)
    (acc : List PyValue) (item : PyValue) : Py (List PyValue) := do
  let idV ← pyGet item "id"
  let fulfV ← pyGetD provider "fulfillments" (.arr [])
  let f0 ← pyIndex fulfV 0
  let fulfillment_id ← pyGet f0 "id"
  let idesc ← pyGetD item "descriptor" (.obj [])
  let nameV ← pyGetD idesc "name" (.str "Unknown Subsidy")
  let shortD ← pyGetD idesc "short_desc" (.str "")
  let longD ← pyGetD idesc "long_desc" (.str "")
  let image ← extractImage item
  let priceO ← pyGetD item "price" (.obj [])
  let priceV ← pyGetD priceO "value" (.str "0")
  let currency ← pyGetD priceO "currency" (.str "USD")
  let tags ← extractTagsDesc item
  pure (acc ++ [.obj [("id", idV), ("provider_id", provider_id),
    ("provider_name", provider_name), ("fulfillment_id", fulfillment_id),
    ("provider_desc", provider_desc), ("name", nameV), ("description", shortD),
    ("long_description", longD), ("image", image), ("price", priceV),
    ("currency", currency), ("tags", .obj tags)]])

/-- One provider of `extract_subsidies_from_response`
(`src/beckn/utils.py:61-101`). -/
def subsidiesProviderStep (acc : List PyValue) (provider : PyValue) :
    Py (List PyValue) := do
  let provider_id ← pyGet provider "id"
  let pdesc ← pyGetD provider "descriptor" (.obj [])
  let provider_name ← pyGetD pdesc "name" (.str "Unknown Provider")
  let provider_desc ← pyGetD pdesc "short_desc" (.str "")
  let itemsV ← pyGetD provider "items" (.arr [])
  let items ← pyIter itemsV
  items.foldlM (subsidiesItemStep provider provider_id provider_name provider_desc) acc

/-- Embedding of `extract_subsidies_from_response` (`src/beckn/utils.py:41-103`). -/
def extract_subsidies_from_response (rd : PyValue) : Py (List PyValue) :=
  extractCatalogTop subsidiesProviderStep rd

/-- One service item of `extract_installers_from_response`
(`src/beckn/utils.py:138-167`). -/
def installersServiceStep (acc : List PyValue) (item : PyValue) :
    Py (List PyValue) := do
  let idV ← pyGet item "id"
  let idesc ← pyGetD item "descriptor" (.obj [])
  let nameV ← pyGetD idesc "name" (.str "Unknown Service")
  let shortD ← pyGetD idesc "short_desc" (.str "")
  let longD ← pyGetD idesc "long_desc" (.str "")
  let image ← extractImage item
  let priceO ← pyGetD item "price" (.obj [])
  let priceV ← pyGetD priceO "value" (.str "0")
  let currency ← pyGetD priceO "currency" (.str "USD")
  let tags ← extractTagsDesc item
  pure (acc ++ [.obj [("id", idV), ("name", nameV), ("description", shortD),
    ("long_description", longD), ("image", image), ("price", priceV),
    ("currency", currency), ("tags", .obj tags)]])

/-- One provider of `extract_installers_from_response`
(`src/beckn/utils.py:125-169`): the installer record is built first, the
services of its items are appended to it afterwards. -/
def installersProviderStep (acc : List PyValue) (provider : PyValue) :
    Py (List PyValue) := do
  let idV ← pyGet provider "id"
  let pdesc ← pyGetD provider "descriptor" (.obj [])
  let nameV ← pyGetD pdesc "name" (.str "Unknown Provider")
  let shortD ← pyGetD pdesc "short_desc" (.str "")
  let longD ← pyGetD pdesc "long_desc" (.str "")
  let image ← extractImage provider
  let locations ← pyGetD provider "locations" (.arr [])
  let itemsV ← pyGetD provider "items" (.arr [])
  let items ← pyIter itemsV
  let services ← items.foldlM installersServiceStep []
  pure (acc ++ [.obj [("id", idV), ("name", nameV), ("short_desc", shortD),
    ("long_desc", longD), ("image", image), ("locations", locations),
    ("services", .arr services)]])

/-- Embedding of `extract_installers_from_response` (`src/beckn/utils.py:105-171`). -/
def extract_installers_from_response (rd : PyValue) : Py (List PyValue) :=
  extractCatalogTop installersProviderStep rd

/-- One item of `extract_energy_programs_from_response`
(`src/beckn/utils.py:199-228`). -/
def programsItemStep (provider_id provider_name : PyValue)
    (acc : List PyValue) (item : PyValue) : Py (List PyValue) := do
  let idV ← pyGet item "id"
  let idesc ← pyGetD item "descriptor" (.obj [])
  let nameV ← pyGetD idesc "name" (.str "Unknown Program")
  let shortD ← pyGetD idesc "short_desc" (.str "")
  let longD ← pyGetD idesc "long_desc" (.str "")
  let image ← extractImage item
  let tags ← extractTagsDesc item
  pure (acc ++ [.obj [("id", idV), ("provider_id", provider_id),
    ("provider_name", provider_name), ("name", nameV), ("description", shortD),
    ("long_description", longD), ("image", image), ("tags", .obj tags)]])

/-- One provider of `extract_energy_programs_from_response`
(`src/beckn/utils.py:193-228`). -/
def programsProviderStep (acc : List PyValue) (provider : PyValue) :
    Py (List PyValue) := do
  let provider_id ← pyGet provider "id"
  let pdesc ← pyGetD provider "descriptor" (.obj [])
  let provider_name ← pyGetD pdesc "name" (.str "Unknown Provider")
  let itemsV ← pyGetD provider "items" (.arr [])
  let items ← pyIter itemsV
  items.foldlM (programsItemStep provider_id provider_name) acc

/-- Embedding of `extract_energy_programs_from_response`
(`src/beckn/utils.py:173-230`). -/
def extract_energy_programs_from_response (rd : PyValue) : Py (List PyValue) :=
  extractCatalogTop programsProviderStep rd

/-- One item of the `utils.py` `extract_energy_trading_opportunities`
(`src/beckn/utils.py:258-288`): the `type` is the item descriptor's `code`
defaulting to "unknown", and the price is converted with a bare
`float(...)`, which raises `ValueError` on non-numeric strings. -/
def tradingUtilsItemStep (provider_id provider_name : PyValue)
    (acc : List PyValue) (item : PyValue) : Py (List PyValue) := do
  let idV ← pyGet item "id"
  let idesc ← pyGetD item "descriptor" (.obj [])
  let typeV ← pyGetD idesc "code" (.str "unknown")
  let nameV ← pyGetD idesc "name" (.str "Unknown Opportunity")
  let shortD ← pyGetD idesc "short_desc" (.str "")
  let priceO ← pyGetD item "price" (.obj [])
  let priceRaw ← pyGetD priceO "value" (.str "0")
  let price ← pyFloat priceRaw
  let currency ← pyGetD priceO "currency" (.str "USD")
  let tags ← extractTagsDesc item
  pure (acc ++ [.obj [("id", idV), ("provider_id", provider_id),
    ("provider_name", provider_name), ("type", typeV), ("name", nameV),
    ("description", shortD), ("price_per_kwh", .num price),
    ("currency", currency), ("tags", .obj tags)]])

/-- One provider of the `utils.py` `extract_energy_trading_opportunities`
(`src/beckn/utils.py:252-288`). -/
def tradingUtilsProviderStep (acc : List PyValue) (provider : PyValue) :
    Py (List PyValue) := do
  let provider_id ← pyGet provider "id"
  let pdesc ← pyGetD provider "descriptor" (.obj [])
  let provider_name ← pyGetD pdesc "name" (.str "Unknown Provider")
  let itemsV ← pyGetD provider "items" (.arr [])
  let items ← pyIter itemsV
  items.foldlM (tradingUtilsItemStep provider_id provider_name) acc

/-- Embedding of `extract_energy_trading_opportunities` from
`src/beckn/utils.py:232-290` — the copy that the agents import. -/
def extract_energy_trading_opportunities (rd : PyValue) : Py (List PyValue) :=
  extractCatalogTop tradingUtilsProviderStep rd

/-- Embedding of the price fallback chain of the `api_client.py`
`extract_energy_trading_opportunities` (`src/beckn/api_client.py:513-518`):
strings get "USD/kWH" removed, are stripped and parsed (parse failure gives
0.0, since a string is not an int/float); numbers pass through (the
`.replace` raises `AttributeError`, and the except-branch converts them
with `float`); booleans count as ints; anything else gives 0.0.  This chain
is total: no input raises. -/
def tradingApiParsePrice (v : PyValue) : ℚ :=
  match v with
  | .str s =>
    match pyFloatOfString (pyStrip (pyReplace s "USD/kWH" "")) with
    | some q => q
    | none => 0
  | .num q => q
  | .bool b => if b then 1 else 0
  | _ => 0

/-- One `tag_item` of the name-keyed tag loop of the `api_client.py`
trading extractor (`src/beckn/api_client.py:545-549`). -/
def tagEntryStepName (tv : List (String × PyValue)) (tag_item : PyValue) :
    Py (List (String × PyValue)) := do
  let idesc ← pyGetD tag_item "descriptor" (.obj [])
  let item_name ← pyGetD idesc "name" (.str "")
  let value ← pyGet tag_item "value"
  if item_name.truthy && value.truthy then do
    let ks ← pyKeyToString item_name
    pure (assocSet tv ks value)
  else pure tv

/-- One tag group of the name-keyed tag loop
(`src/beckn/api_client.py:540-552`). -/
def tagGroupStepName (acc : List (String × PyValue)) (tag : PyValue) :
    Py (List (String × PyValue)) := do
  let tdesc ← pyGetD tag "descriptor" (.obj [])
  let tag_name ← pyGetD tdesc "name" (.str "")
  if !tag_name.truthy then pure acc
  else do
    let listV ← pyGetD tag "list" (.arr [])
    let entries ← pyIter listV
    let tag_values ← entries.foldlM tagEntryStepName []
    if !tag_values.isEmpty then do
      let ks ← pyKeyToString tag_name
      pure (assocSet acc ks (.obj tag_values))
    else pure acc

/-- The name-keyed tag extraction of the `api_client.py` trading extractor. -/
def extractTagsName (item : PyValue) : Py (List (String × PyValue)) := do
  let tagsV ← pyGetD item "tags" (.arr [])
  let tags ← pyIter tagsV
  tags.foldlM tagGroupStepName []

/-- One item of the `api_client.py` `extract_energy_trading_opportunities`
(`src/beckn/api_client.py:505-562`): the type is classified purely from the
lowercased display name ("sell" / "buy" substrings, default
`p2p_sharing`); the price uses the total fallback chain; the tags get the
`energy_available` and `source_type` entries appended after the loop. -/
def tradingApiItemStep (provider_id provider_name provider_location : PyValue)
    (acc : List PyValue) (item : PyValue) : Py (List PyValue) := do
  let idesc ← pyGetD item "descriptor" (.obj [])
  let name1 ← pyGetD idesc "name" (.str "")
  let lower1 ← pyLowerV name1
  let item_type :=
    if strContainsSub lower1 "sell" then "sell_excess"
    else if strContainsSub lower1 "buy" then "buy_energy"
    else "p2p_sharing"
  let priceO ← pyGetD item "price" (.obj [])
  let priceRaw ← pyGetD priceO "value" (.str "0")
  let price := tradingApiParsePrice priceRaw
  let quantity ← pyGetD item "quantity" (.obj [])
  let hasAvail ← pyContainsStr quantity "available"
  let available ←
    if hasAvail then do
      let availO ← pyGetD quantity "available" (.obj [])
      let measO ← pyGetD availO "measure" (.obj [])
      pyGetD measO "value" (.str "0")
    else pure (PyValue.str "0")
  let idV ← pyGet item "id"
  let nameV ← pyGetD idesc "name" (.str "Unknown Opportunity")
  let shortD ← pyGetD idesc "short_desc" (.str "")
  let tags0 ← extractTagsName item
  let tags1 := assocSet tags0 "energy_available" (.obj [("amount", available)])
  let energyAttrs := (assocLookup tags1 "Energy Attributes").getD (.obj [])
  let source_type ← pyGetD energyAttrs "Source Type" (.str "Solar")
  let tags2 := assocSet tags1 "source_type" source_type
  pure (acc ++ [.obj [("id", idV), ("provider_id", provider_id),
    ("provider_name", provider_name), ("type", .str item_type),
    ("name", nameV), ("description", shortD), ("price_per_kwh", .num price),
    ("currency", .str "USD"), ("tags", .obj tags2),
    ("location", provider_location)]])

/-- One provider of the `api_client.py` trading extractor
(`src/beckn/api_client.py:490-562`), including the first-location
surfacing. -/
def tradingApiProviderStep (acc : List PyValue) (provider : PyValue) :
    Py (List PyValue) := do
  let provider_id ← pyGet provider "id"
  let pdesc ← pyGetD provider "descriptor" (.obj [])
  let provider_name ← pyGetD pdesc "name" (.str "Unknown Provider")
  let locationsV ← pyGetD provider "locations" (.arr [])
  let provider_location ←
    if locationsV.truthy then do
      let n ← pyLen locationsV
      if n > 0 then do
        let loc0 ← pyIndex locationsV 0
        let gps ← pyGet loc0 "gps"
        let addr ← pyGet loc0 "address"
        pure (PyValue.obj [("gps", gps), ("address", addr)])
      else pure PyValue.null
    else pure PyValue.null
  let itemsV ← pyGetD provider "items" (.arr [])
  let items ← pyIter itemsV
  items.foldlM (tradingApiItemStep provider_id provider_name provider_location) acc

/-- Embedding of `extract_energy_trading_opportunities` from
`src/beckn/api_client.py:470-564` — the module-level copy living next to
the client class (not the one the agents import). -/
def extract_energy_trading_opportunities_api (rd : PyValue) : Py (List PyValue) :=
  extractCatalogTop tradingApiProviderStep rd

/-- The scan of `extract_order_details` (`src/beckn/utils.py:300-302`):
first entry with `"message" in response and "order" in response["message"]`
yields `response["message"]["order"]`; otherwise the empty dict. -/
def extractOrderScan : List PyValue → Py PyValue
  | [] => pure (.obj [])
  | r :: rest => do
    let hm ← pyContainsStr r "message"
    if hm then do
      let m ← pySubscript r "message"
      let ho ← pyContainsStr m "order"
      if ho then do
        let m2 ← pySubscript r "message"
        pySubscript m2 "order"
      else extractOrderScan rest
    else extractOrderScan rest

/-- Embedding of `extract_order_details` (`src/beckn/utils.py:292-304`). -/
def extract_order_details (rd : PyValue) : Py PyValue :=
  if !rd.truthy then pure (.obj [])
  else do
    let c ← pyContainsStr rd "responses"
    if !c then pure (.obj [])
    else do
      let v ← pyGetD rd "responses" (.arr [])
      let resps ← pyIter v
      extractOrderScan resps

/-- Python `==` against a string literal (the only comparison the agent
code performs on extracted values). -/
def pyEqStr (v : PyValue) (s : String) : Bool :=
  match v with
  | .str t => t == s
  | _ => false

/-- Round-half-to-even on a rational, the rounding of Python's `round`. -/
def roundHalfEven (q : ℚ) : ℤ :=
  let f := ⌊q⌋
  let r := q - f
  if r < 1/2 then f
  else if 1/2 < r then f + 1
  else if f % 2 = 0 then f else f + 1

/-- Model of Python's `round(q, digits)` with floats read as exact
rationals. -/
def pyRound (digits : Nat) (q : ℚ) : ℚ :=
  (roundHalfEven (q * (10 : ℚ) ^ digits) : ℚ) / (10 : ℚ) ^ digits

/-- The `auto_trading` settings dict of a user: each configurable price is
optional (the code reads it with `.get` and a default). -/
structure AutoTrading where
  min_sell_price_kwh : Option ℚ
  max_buy_price_kwh : Option ℚ
  token_rewards : Bool
deriving Repr

/-- Typed model of one user's entry in `ProsumerEnergyAgent.state`: the
fields the trading operations read and write.  An absent dict key is
modelled by the default the code supplies at each read site (`[]` for
`transactions`/`nfts`, `0` for the running totals and the community
score). -/
structure UserState where
  auto_trading : AutoTrading
  transactions : List PyValue
  total_earnings : ℚ
  total_costs : ℚ
  community_score : ℚ
  nfts : List PyValue
  trading_opportunities : List PyValue

/-- The state of a user that has just been created (empty dict). -/
def emptyUserState : UserState :=
  { auto_trading :=
      { min_sell_price_kwh := none, max_buy_price_kwh := none,
        token_rewards := false },
    transactions := [], total_earnings := 0, total_costs := 0,
    community_score := 0, nfts := [], trading_opportunities := [] }

/-- The agent's per-user state map `self.state`. -/
abbrev AgentState := List (String × UserState)

/-- Does `user_id in self.state` hold, and with which entry? -/
def stLookup (st : AgentState) (u : String) : Option UserState :=
  match st with
  | [] => none
  | (k, v) :: rest => if k = u then some v else stLookup rest u

/-- Write a user's entry (keeping the position of an existing key). -/
def stSet (st : AgentState) (u : String) (v : UserState) : AgentState :=
  match st with
  | [] => [(u, v)]
  | (k, v1) :: rest =>
    if k = u then (u, v) :: rest else (k, v1) :: stSet rest u v

/-- Embedding of `ProsumerEnergyAgent.get_state`
(`src/agents/prosumer_energy_agent.py:71-73`): `self.state.get(user_id, {})`. -/
def get_state (st : AgentState) (u : String) : UserState :=
  (stLookup st u).getD emptyUserState

/-- The hardcoded placeholder opportunities returned when the network gave
none (`src/agents/prosumer_energy_agent.py:188-209`). -/
def placeholderOpportunities : List PyValue :=
  [.obj [("id", .str "opp-1"), ("provider_id", .str "grid-op-1"),
     ("provider_name", .str "Local Grid Operator"), ("type", .str "sell_excess"),
     ("name", .str "Peak Hour Selling"),
     ("description", .str "Sell excess solar production during peak hours"),
     ("price_per_kwh", .num (15/100)), ("currency", .str "USD")],
   .obj [("id", .str "opp-2"), ("provider_id", .str "community-1"),
     ("provider_name", .str "Community Energy Group"), ("type", .str "p2p_sharing"),
     ("name", .str "Community Sharing"),
     ("description", .str "Share excess with local community energy group"),
     ("price_per_kwh", .num (12/100)), ("currency", .str "USD")]]

/-- Embedding of `ProsumerEnergyAgent.get_energy_trading_opportunities`
(`src/agents/prosumer_energy_agent.py:177-221`).  The network search
response is a parameter (the HTTP client is the abstracted boundary).  The
`utils.py` extractor is the one the agent imports; when it raises, the
method's own try/except returns the empty list without storing anything —
otherwise the (possibly placeholder) list is stored under the user's
`trading_opportunities` key, creating the user's entry when absent. -/
def get_energy_trading_opportunities (st : AgentState) (user_id : String)
    (searchResp : PyValue) : List PyValue × AgentState :=
  match extract_energy_trading_opportunities searchResp with
  | .error _ => ([], st)
  | .ok opps0 =>
    let opps := if opps0.isEmpty then placeholderOpportunities else opps0
    let st2 :=
      match stLookup st user_id with
      | some u => stSet st user_id { u with trading_opportunities := opps }
      | none => stSet st user_id { emptyUserState with trading_opportunities := opps }
    (opps, st2)

/-- Embedding of `ProsumerEnergyAgent.create_energy_nft`
(`src/agents/prosumer_energy_agent.py:308-353`): a simulated token record;
the current wall-clock values are parameters.  It appends the record to
the user's `nfts` list, creating the user's entry when absent. -/
def create_energy_nft (st : AgentState) (user_id nft_type : String) (amount : ℚ)
    (nowTs : Nat) (nowIso : String) : PyValue × AgentState :=
  let trip :=
    if nft_type = "renewable_credit" then (amount * (25/1000), "GreenToken Exchange", "Ethereum")
    else ((15 : ℚ), "FlexChain", "Polygon")
  let token_id := "nft-" ++ user_id.take 4 ++ "-" ++ nft_type.take 4 ++ "-" ++ toString nowTs
  let marketplace_url :=
    "https://" ++ pyReplace (pyLower trip.2.1) " " "" ++ ".io/token/" ++ token_id
  let nft := PyValue.obj [("token_id", .str token_id), ("status", .str "created"),
    ("value_usd", .num (pyRound 2 trip.1)), ("blockchain", .str trip.2.2),
    ("contract_address", .str ("0x" ++ token_id ++ "abcdef1234567890abcdef12345678")),
    ("creation_time", .str nowIso), ("marketplace", .str trip.2.1),
    ("marketplace_url", .str marketplace_url), ("type", .str nft_type)]
  let st2 :=
    match stLookup st user_id with
    | some u => stSet st user_id { u with nfts := u.nfts ++ [nft] }
    | none => stSet st user_id { emptyUserState with nfts := [nft] }
  (nft, st2)

/-- Short description used for the `message` field of an error-shaped
result (the source stores `str(e)`). -/
def pyErrMsg : PyErr → String
  | .typeError => "TypeError"
  | .attributeError => "AttributeError"
  | .indexError => "IndexError"
  | .keyError => "KeyError"
  | .valueError => "ValueError"

/-- The part of `execute_grid_sale` after the opportunity lookup, in the
exception monad (`src/agents/prosumer_energy_agent.py:531-576`). -/
def gridSaleRest (st1 : AgentState) (user_id : String) (amount_kwh : ℚ)
    (ats : AutoTrading) (price_per_kwh : ℚ) (opportunities : List PyValue)
    (tradeResp : PyValue) (nowTs : Nat) (nowIso : String) :
    Py (PyValue × AgentState) := do
  let _provider_id ←
    if !opportunities.isEmpty then do
      let o0 ← pyIndex (.arr opportunities) 0
      pySubscript o0 "provider_id"
    else pure (PyValue.str "grid-op-1")
  let transaction_id0 := PyValue.str ("grid-" ++ user_id.take 4 ++ "-" ++ toString nowTs)
  let order ← extract_order_details tradeResp
  let transaction_id ←
    if order.truthy then do
      let idV ← pyGet order "id"
      if idV.truthy then pySubscript order "id" else pure transaction_id0
    else pure transaction_id0
  let nftPair :=
    if ats.token_rewards then
      let r := create_energy_nft st1 user_id "renewable_credit" amount_kwh nowTs nowIso
      (r.1, r.2)
    else (PyValue.null, st1)
  let total := pyRound 2 (amount_kwh * price_per_kwh)
  let sale_result := PyValue.obj [("status", .str "completed"),
    ("transaction_type", .str "grid_sale"), ("amount_kwh", .num amount_kwh),
    ("price_per_kwh", .num price_per_kwh), ("total_amount_usd", .num total),
    ("transaction_id", transaction_id), ("timestamp", .str nowIso),
    ("nft_details", nftPair.1)]
  let st3 :=
    match stLookup nftPair.2 user_id with
    | some u => stSet nftPair.2 user_id
        { u with transactions := u.transactions ++ [sale_result],
                 total_earnings := u.total_earnings + total }
    | none => nftPair.2
  pure (sale_result, st3)

/-- Embedding of `ProsumerEnergyAgent.execute_grid_sale`
(`src/agents/prosumer_energy_agent.py:518-585`).  The two network
responses (trading-opportunity search, trade init) and the wall clock are
parameters.  The selected provider id only feeds the abstracted network
call; the `[0]["provider_id"]` subscription is still performed because it
can raise into the surrounding try/except.  On an exception the state
mutations already performed by the opportunity lookup persist. -/
def execute_grid_sale (st : AgentState) (user_id : String) (amount_kwh : ℚ)
    (searchResp tradeResp : PyValue) (nowTs : Nat) (nowIso : String) :
    PyValue × AgentState :=
  let user_state := get_state st user_id
  let ats := user_state.auto_trading
  let price_per_kwh := max (18/100 : ℚ) (ats.min_sell_price_kwh.getD (12/100))
  let p := get_energy_trading_opportunities st user_id searchResp
  match gridSaleRest p.2 user_id amount_kwh ats price_per_kwh p.1 tradeResp nowTs nowIso with
  | .ok r => r
  | .error e =>
    (.obj [("status", .str "error"), ("message", .str (pyErrMsg e)),
       ("transaction_type", .str "grid_sale"), ("amount_kwh", .num amount_kwh)], p.2)

/-- The part of `execute_grid_purchase` after the opportunity lookup
(`src/agents/prosumer_energy_agent.py:600-639`): no token minting, and the
running total updated is `total_costs`. -/
def gridPurchaseRest (st1 : AgentState) (user_id : String) (amount_kwh : ℚ)
    (price_per_kwh : ℚ) (opportunities : List PyValue)
    (tradeResp : PyValue) (nowTs : Nat) (nowIso : String) :
    Py (PyValue × AgentState) := do
  let _provider_id ←
    if !opportunities.isEmpty then do
      let o0 ← pyIndex (.arr opportunities) 0
      pySubscript o0 "provider_id"
    else pure (PyValue.str "grid-op-1")
  let transaction_id0 := PyValue.str ("buy-" ++ user_id.take 4 ++ "-" ++ toString nowTs)
  let order ← extract_order_details tradeResp
  let transaction_id ←
    if order.truthy then do
      let idV ← pyGet order "id"
      if idV.truthy then pySubscript order "id" else pure transaction_id0
    else pure transaction_id0
  let total := pyRound 2 (amount_kwh * price_per_kwh)
  let purchase_result := PyValue.obj [("status", .str "completed"),
    ("transaction_type", .str "grid_purchase"), ("amount_kwh", .num amount_kwh),
    ("price_per_kwh", .num price_per_kwh), ("total_amount_usd", .num total),
    ("transaction_id", transaction_id), ("timestamp", .str nowIso)]
  let st3 :=
    match stLookup st1 user_id with
    | some u => stSet st1 user_id
        { u with transactions := u.transactions ++ [purchase_result],
                 total_costs := u.total_costs + total }
    | none => st1
  pure (purchase_result, st3)

/-- Embedding of `ProsumerEnergyAgent.execute_grid_purchase`
(`src/agents/prosumer_energy_agent.py:587-648`). -/
def execute_grid_purchase (st : AgentState) (user_id : String) (amount_kwh : ℚ)
    (searchResp tradeResp : PyValue) (nowTs : Nat) (nowIso : String) :
    PyValue × AgentState :=
  let user_state := get_state st user_id
  let ats := user_state.auto_trading
  let price_per_kwh := min (10/100 : ℚ) (ats.max_buy_price_kwh.getD (8/100))
  let p := get_energy_trading_opportunities st user_id searchResp
  match gridPurchaseRest p.2 user_id amount_kwh price_per_kwh p.1 tradeResp nowTs nowIso with
  | .ok r => r
  | .error e =>
    (.obj [("status", .str "error"), ("message", .str (pyErrMsg e)),
       ("transaction_type", .str "grid_purchase"), ("amount_kwh", .num amount_kwh)], p.2)

/-- The part of `execute_p2p_sharing` after the opportunity lookup
(`src/agents/prosumer_energy_agent.py:662-723`): the community-score write
happens before the transaction append and creates the user's entry when
absent, so the append always finds the user present. -/
def p2pSharingRest (st1 : AgentState) (user_id : String) (amount_kwh : ℚ)
    (ats : AutoTrading) (price_per_kwh initial_community_score : ℚ)
    (opportunities : List PyValue) (tradeResp : PyValue)
    (nowTs randNeighbor : Nat) (nowIso : String) : Py (PyValue × AgentState) := do
  let p2p ← opportunities.filterM fun o => do
    let t ← pyGet o "type"
    pure (pyEqStr t "p2p_sharing")
  let pidRec ←
    if !p2p.isEmpty then do
      let o0 ← pyIndex (.arr p2p) 0
      let pid ← pySubscript o0 "provider_id"
      let rec1 ← pySubscript o0 "provider_name"
      pure (pid, rec1)
    else
      pure (PyValue.str "community-1", PyValue.str ("neighbor-" ++ toString randNeighbor))
  let transaction_id0 := PyValue.str ("p2p-" ++ user_id.take 4 ++ "-" ++ toString nowTs)
  let order ← extract_order_details tradeResp
  let transaction_id ←
    if order.truthy then do
      let idV ← pyGet order "id"
      if idV.truthy then pySubscript order "id" else pure transaction_id0
    else pure transaction_id0
  let nftPair :=
    if ats.token_rewards then
      let r := create_energy_nft st1 user_id "community_share" amount_kwh nowTs nowIso
      (r.1, r.2)
    else (PyValue.null, st1)
  let community_contribution := amount_kwh / 10
  let community_score := initial_community_score + community_contribution
  let st3 :=
    match stLookup nftPair.2 user_id with
    | some u => stSet nftPair.2 user_id { u with community_score := community_score }
    | none => stSet nftPair.2 user_id { emptyUserState with community_score := community_score }
  let total := pyRound 2 (amount_kwh * price_per_kwh)
  let sharing_result := PyValue.obj [("status", .str "completed"),
    ("transaction_type", .str "p2p_sharing"), ("amount_kwh", .num amount_kwh),
    ("price_per_kwh", .num price_per_kwh), ("total_amount_usd", .num total),
    ("community_contribution", .num (pyRound 1 community_contribution)),
    ("community_score", .num (pyRound 1 community_score)),
    ("transaction_id", transaction_id), ("timestamp", .str nowIso),
    ("nft_details", nftPair.1), ("recipient", pidRec.2)]
  let st4 :=
    match stLookup st3 user_id with
    | some u => stSet st3 user_id
        { u with transactions := u.transactions ++ [sharing_result],
                 total_earnings := u.total_earnings + total }
    | none => st3
  pure (sharing_result, st4)

/-- Embedding of `ProsumerEnergyAgent.execute_p2p_sharing`
(`src/agents/prosumer_energy_agent.py:650-732`).  `randNeighbor` models
the drawn `random.randint(1000, 9999)`; the initial community score is
read from the user's state before any mutation, as the source reads it
from the dict snapshot obtained at the top. -/
def execute_p2p_sharing (st : AgentState) (user_id : String) (amount_kwh : ℚ)
    (searchResp tradeResp : PyValue) (nowTs randNeighbor : Nat) (nowIso : String) :
    PyValue × AgentState :=
  let user_state := get_state st user_id
  let ats := user_state.auto_trading
  let price_per_kwh := max (15/100 : ℚ) (ats.min_sell_price_kwh.getD (12/100) * (9/10))
  let p := get_energy_trading_opportunities st user_id searchResp
  match p2pSharingRest p.2 user_id amount_kwh ats price_per_kwh
      user_state.community_score p.1 tradeResp nowTs randNeighbor nowIso with
  | .ok r => r
  | .error e =>
    (.obj [("status", .str "error"), ("message", .str (pyErrMsg e)),
       ("transaction_type", .str "p2p_sharing"), ("amount_kwh", .num amount_kwh)], p.2)

/-- Character for a decimal digit (`d` is reduced mod 10). -/
def digitChar (d : Nat) : Char :=
  Char.ofNat (48 + d % 10)

/-- Decimal digit characters of a positive natural number, fuel-driven so
that concrete values reduce by computation (the fuel is the number itself,
always sufficient since each step divides by ten). -/
def natToCharsGo : Nat → Nat → List Char
  | 0, _ => []
  | fuel + 1, n =>
    if n = 0 then [] else natToCharsGo fuel (n / 10) ++ [digitChar (n % 10)]

/-- Decimal digit characters of a natural number. -/
def natToChars (n : Nat) : List Char :=
  if n = 0 then ['0'] else natToCharsGo n n

/-- Zero-padded decimal rendering, as produced by the `strftime` field
directives the source uses. -/
def padChars (width n : Nat) : List Char :=
  List.replicate (width - (natToChars n).length) '0' ++ natToChars n

/-- A UTC wall-clock instant as passed to `strftime`. -/
structure PyDateTime where
  year : Nat
  month : Nat
  day : Nat
  hour : Nat
  minute : Nat
  second : Nat
  microsecond : Nat

/-- Embedding of
`datetime.utcnow().strftime("%Y-%m-%dT%H:%M:%S.%fZ")`
(`src/beckn/utils.py:38`). -/
def strftimeTimestamp (dt : PyDateTime) : String :=
  String.mk (padChars 4 dt.year ++ ['-'] ++ padChars 2 dt.month ++ ['-'] ++
    padChars 2 dt.day ++ ['T'] ++ padChars 2 dt.hour ++ [':'] ++
    padChars 2 dt.minute ++ [':'] ++ padChars 2 dt.second ++ ['.'] ++
    padChars 6 dt.microsecond ++ ['Z'])

/-- Model of `os.getenv(k, d)`: the process environment is a parameter. -/
def getenvD (env : String → Option String) (k d : String) : String :=
  (env k).getD d

/-- Model of `a or b` for an optional-string `a` (Python's `or` falls
through on `None` and on the empty string, both falsy). -/
def pyOrStr (a : Option String) (b : String) : String :=
  match a with
  | some s => if s.isEmpty then b else s
  | none => b

/-- Built-in default for `BECKN_BAP_ID` (`src/beckn/utils.py:15`). -/
def defaultBapId : String := "bap-ps-network-deg-team8.becknprotocol.io"

/-- Built-in default for `BECKN_BAP_URI` (`src/beckn/utils.py:16`). -/
def defaultBapUri : String := "https://bap-ps-network-deg-team8.becknprotocol.io"

/-- Built-in default for `BECKN_BPP_ID` (`src/beckn/utils.py:17`). -/
def defaultBppId : String := "bpp-ps-network-deg-team8.becknprotocol.io"

/-- Built-in default for `BECKN_BPP_URI` (`src/beckn/utils.py:18`). -/
def defaultBppUri : String := "https://bpp-ps-network-deg-team8.becknprotocol.io"

/-- Embedding of `create_beckn_context` (`src/beckn/utils.py:9-39`).  The
two fresh UUID draws and the current UTC instant are parameters of the
embedding (the only nondeterministic inputs); everything else follows the
source: each network identity field is the explicit argument when truthy,
otherwise the environment value, otherwise the built-in default. -/
def create_beckn_context (action domain city_code country_code : String)
    (bap_id bap_uri bpp_id bpp_uri : Option String)
    (env : String → Option String) (transaction_id message_id : String)
    (now : PyDateTime) : PyValue :=
  let bap_id1 := pyOrStr bap_id (getenvD env "BECKN_BAP_ID" defaultBapId)
  let bap_uri1 := pyOrStr bap_uri (getenvD env "BECKN_BAP_URI" defaultBapUri)
  let bpp_id1 := pyOrStr bpp_id (getenvD env "BECKN_BPP_ID" defaultBppId)
  let bpp_uri1 := pyOrStr bpp_uri (getenvD env "BECKN_BPP_URI" defaultBppUri)
  .obj [("domain", .str domain), ("action", .str action),
    ("location", .obj [("country", .obj [("code", .str country_code)]),
      ("city", .obj [("code", .str city_code)])]),
    ("version", .str "1.1.0"),
    ("bap_id", .str bap_id1), ("bap_uri", .str bap_uri1),
    ("bpp_id", .str bpp_id1), ("bpp_uri", .str bpp_uri1),
    ("transaction_id", .str transaction_id), ("message_id", .str message_id),
    ("timestamp", .str (strftimeTimestamp now))]

/-- Outcome of the single `requests.post` of `_make_api_call`: either the
transport failed, or a response arrived with a status code and a body
whose JSON decoding either succeeded or failed. -/
inductive HttpOutcome where
  | transportError (msg : String)
  | response (status : Nat) (body : Except String PyValue)

/-- Embedding of `BecknAPIClient._make_api_call`
(`src/beckn/api_client.py:38-58`): `raise_for_status` raises on 4xx/5xx,
`response.json()` raises on an undecodable body, and the catch-all except
turns every raise into `{"error": str(e)}`.  The endpoint and payload do
not influence the outcome handling. -/
def make_api_call (endpoint : String) (payload : PyValue) (outcome : HttpOutcome) :
    PyValue :=
  match outcome with
  | .transportError msg => .obj [("error", .str msg)]
  | .response status body =>
    if 400 ≤ status ∧ status < 600 then
      .obj [("error", .str ("HTTP error " ++ String.mk (natToChars status) ++
        " for endpoint " ++ endpoint))]
    else
      match body with
      | .ok j => j
      | .error msg => .obj [("error", .str msg)]

/-- Embedding of `BecknAPIClient.search_subsidies`
(`src/beckn/api_client.py:60-72`); the built context is a parameter. -/
def search_subsidies (query : String) (ctx : PyValue) (outcome : HttpOutcome) :
    PyValue :=
  make_api_call "search"
    (.obj [("context", ctx),
      ("message", .obj [("descriptor", .obj [("name", .str query)])])])
    outcome

/-- Embedding of `BecknAPIClient.select_item`
(`src/beckn/api_client.py:123-141`). -/
def select_item (provider_id item_id : String) (ctx : PyValue)
    (outcome : HttpOutcome) : PyValue :=
  make_api_call "select"
    (.obj [("context", ctx),
      ("message", .obj [("order", .obj [("provider", .obj [("id", .str provider_id)]),
        ("items", .arr [.obj [("id", .str item_id)]])])])])
    outcome

/-- Embedding of `BecknAPIClient.init_order`
(`src/beckn/api_client.py:143-161`). -/
def init_order (provider_id item_id : String) (ctx : PyValue)
    (outcome : HttpOutcome) : PyValue :=
  make_api_call "init"
    (.obj [("context", ctx),
      ("message", .obj [("order", .obj [("provider", .obj [("id", .str provider_id)]),
        ("items", .arr [.obj [("id", .str item_id)]])])])])
    outcome

/-- Embedding of `BecknAPIClient.confirm_order`
(`src/beckn/api_client.py:163-187`). -/
def confirm_order (provider_id item_id fulfillment_id : String)
    (customer_info : PyValue) (ctx : PyValue) (outcome : HttpOutcome) : PyValue :=
  make_api_call "confirm"
    (.obj [("context", ctx),
      ("message", .obj [("order", .obj [("provider", .obj [("id", .str provider_id)]),
        ("items", .arr [.obj [("id", .str item_id)]]),
        ("fulfillments", .arr [.obj [("id", .str fulfillment_id),
          ("customer", customer_info)]])])])])
    outcome

/-- Embedding of `BecknAPIClient.check_status`
(`src/beckn/api_client.py:189-198`). -/
def check_status (order_id : String) (ctx : PyValue) (outcome : HttpOutcome) :
    PyValue :=
  make_api_call "status"
    (.obj [("context", ctx),
      ("message", .obj [("order_id", .str order_id)])])
    outcome

theorem py_bind_ok {α β : Type} (a : α) (f : α → Py β) :
    (Except.ok a : Py α) >>= f = f a := rfl

theorem py_bind_error {α β : Type} (e : PyErr) (f : α → Py β) :
    (Except.error e : Py α) >>= f = Except.error e := rfl

theorem py_pure_eq {α : Type} (a : α) : (pure a : Py α) = Except.ok a := rfl

/-- A monadic fold whose step fixes every accumulator on the given list
returns the initial accumulator. -/
theorem foldlM_fixed {β : Type} (step : β → PyValue → Py β) (l : List PyValue)
    (h : ∀ e ∈ l, ∀ acc, step acc e = .ok acc) (a : β) :
    l.foldlM step a = .ok a := by
  induction l generalizing a with
  | nil => rfl
  | cons x xs ih =>
    have hx := h x (by simp)
    simp only [List.foldlM_cons, hx, py_bind_ok]
    exact ih (fun e he acc => h e (by simp [he]) acc) a

/-- One response entry that the claim calls malformed: a dict missing
`message`, or whose `message` dict misses `catalog`, or whose catalog's
`providers` is the empty list. -/
def malformedEntry (e : PyValue) : Bool :=
  match e with
  | .obj kvs =>
    match assocLookup kvs "message" with
    | none => true
    | some (.obj mkvs) =>
      match assocLookup mkvs "catalog" with
      | none => true
      | some (.obj ckvs) =>
        match assocLookup ckvs "providers" with
        | some (.arr []) => true
        | _ => false
      | _ => false
    | _ => false
  | _ => false

/-- A top-level value that the claim calls malformed: `None`, a dict
without the `responses` key, or a dict whose `responses` are all
malformed entries. -/
def MalformedTop (rd : PyValue) : Prop :=
  rd = .null ∨
  (∃ kvs, rd = .obj kvs ∧ assocLookup kvs "responses" = none) ∨
  (∃ kvs entries, rd = .obj kvs ∧
    assocLookup kvs "responses" = some (.arr entries) ∧
    ∀ e ∈ entries, malformedEntry e = true)

/-- A malformed response entry contributes nothing, whatever the
provider step. -/
theorem catalogResponseStep_malformed
    (ps : List PyValue → PyValue → Py (List PyValue)) (acc : List PyValue)
    (e : PyValue) (h : malformedEntry e = true) :
    catalogResponseStep ps acc e = .ok acc := by
  match e with
  | .null | .bool _ | .num _ | .str _ | .arr _ => simp [malformedEntry] at h
  | .obj kvs =>
    match hkvs : kvs with
    | [] => simp [catalogResponseStep, PyValue.truthy, py_pure_eq]
    | p :: rest =>
      have htr : PyValue.truthy (.obj (p :: rest)) = true := by
        simp [PyValue.truthy]
      simp only [catalogResponseStep, htr, Bool.not_true, Bool.false_eq_true,
        if_false, pyContainsStr]
      match hm : assocLookup (p :: rest) "message" with
      | none => simp [hm, py_bind_ok, py_pure_eq]
      | some m =>
        simp only [malformedEntry, hm] at h
        match m with
        | .null | .bool _ | .num _ | .str _ | .arr _ => simp at h
        | .obj mkvs =>
          simp only [py_bind_ok, Option.isSome_some, Bool.not_true,
            Bool.false_eq_true, if_false, pyGetD, hm, Option.getD_some]
          match hc : assocLookup mkvs "catalog" with
          | none =>
            simp [hc, pyGetD, assocLookup, pyIter, py_bind_ok, py_pure_eq]
          | some c =>
            simp only [hc] at h
            match c with
            | .null | .bool _ | .num _ | .str _ | .arr _ => simp at h
            | .obj ckvs =>
              match hp : assocLookup ckvs "providers" with
              | none => simp [hc, hp, pyGetD, pyIter, py_bind_ok, py_pure_eq]
              | some pv =>
                simp only [hp] at h
                match pv with
                | .arr [] => simp [hc, hp, pyGetD, pyIter, py_bind_ok, py_pure_eq]
                | .null | .bool _ | .num _ | .str _ | .obj _ => simp at h
                | .arr (_ :: _) => simp at h

/-- Every catalog extractor returns the empty list on a malformed input,
whatever its provider step. -/
theorem extractCatalogTop_malformed
    (ps : List PyValue → PyValue → Py (List PyValue)) (rd : PyValue)
    (h : MalformedTop rd) : extractCatalogTop ps rd = .ok [] := by
  rcases h with h | ⟨kvs, rfl, hl⟩ | ⟨kvs, entries, rfl, hl, hmal⟩
  · subst h; simp [extractCatalogTop, PyValue.truthy, py_pure_eq]
  · match kvs with
    | [] => simp [extractCatalogTop, PyValue.truthy, py_pure_eq]
    | p :: rest =>
      simp [extractCatalogTop, PyValue.truthy, pyContainsStr, hl, py_bind_ok,
        py_pure_eq]
  · match kvs with
    | [] => simp [assocLookup] at hl
    | p :: rest =>
      simp only [extractCatalogTop, PyValue.truthy, List.isEmpty_cons,
        Bool.not_false, if_true, pyContainsStr, hl, Option.isSome_some,
        py_bind_ok, Bool.not_true, Bool.false_eq_true, if_false, pyGetD,
        Option.getD_some, pyIter]
      exact foldlM_fixed _ entries
        (fun e he acc => catalogResponseStep_malformed ps acc e (hmal e he)) []

/-- C1: for every input that is `None` or a dict lacking the `responses`
key, and for every dict input whose `responses` entries each miss
`message`, miss `catalog`, or carry an empty `providers` list, all four
catalog extractors of `utils.py` — and the `api_client.py` copy of the
trading extractor — return the empty list without raising. -/
theorem C1_extractors_empty_on_malformed (rd : PyValue) (h : MalformedTop rd) :
    extract_subsidies_from_response rd = .ok [] ∧
    extract_installers_from_response rd = .ok [] ∧
    extract_energy_programs_from_response rd = .ok [] ∧
    extract_energy_trading_opportunities rd = .ok [] ∧
    extract_energy_trading_opportunities_api rd = .ok [] :=
  ⟨extractCatalogTop_malformed _ rd h, extractCatalogTop_malformed _ rd h,
   extractCatalogTop_malformed _ rd h, extractCatalogTop_malformed _ rd h,
   extractCatalogTop_malformed _ rd h⟩

/-- A dict input exercising all three malformed-entry shapes at once. -/
def malformedFixture : PyValue :=
  .obj [("responses", .arr
    [.obj [("context", .str "no message key")],
     .obj [("message", .obj [("ack", .str "no catalog key")])],
     .obj [("message", .obj [("catalog", .obj [("providers", .arr [])])])]])]

/-- Witness for C1: the theorem applied to `None`, to a dict without
`responses`, and to a dict whose entries realise the three malformed
shapes. -/
theorem C1_extractors_empty_on_malformed_witness :
    extract_subsidies_from_response .null = .ok [] ∧
    extract_energy_trading_opportunities (.obj [("foo", .str "bar")]) = .ok [] ∧
    extract_subsidies_from_response malformedFixture = .ok [] ∧
    extract_installers_from_response malformedFixture = .ok [] ∧
    extract_energy_programs_from_response malformedFixture = .ok [] ∧
    extract_energy_trading_opportunities malformedFixture = .ok [] ∧
    extract_energy_trading_opportunities_api malformedFixture = .ok [] := by
  have h1 := C1_extractors_empty_on_malformed .null (by left; rfl)
  have h2 := C1_extractors_empty_on_malformed (.obj [("foo", .str "bar")])
    (by right; left; exact ⟨_, rfl, by simp [assocLookup]⟩)
  have h3 := C1_extractors_empty_on_malformed malformedFixture
    (by
      right; right
      refine ⟨_, _, rfl, rfl, ?_⟩
      intro e he
      simp only [List.mem_cons, List.not_mem_nil, or_false] at he
      rcases he with rfl | rfl | rfl <;> rfl)
  exact ⟨h1.1, h2.2.2.2.1, h3.1, h3.2.1, h3.2.2.1, h3.2.2.2.1, h3.2.2.2.2⟩

/-- C5: `_make_api_call` returns the parsed JSON body when the transport
succeeded, the status is below 400 and the body decoded; it returns an
`{"error": ...}` mapping on a transport failure, on a 4xx/5xx status and
on a body that fails to decode — it never raises (the embedding is a total
function).  The five protocol actions `search` (via `search_subsidies`),
`select_item`, `init_order`, `confirm_order` and `check_status` all
delegate to it with their respective envelope. -/
theorem C5_make_api_call_contract
    (endpoint query provider_id item_id fulfillment_id order_id : String)
    (payload customer_info ctx : PyValue) (outcome : HttpOutcome) :
    (∀ status j, outcome = .response status (.ok j) → status < 400 →
      make_api_call endpoint payload outcome = j) ∧
    (∀ msg, outcome = .transportError msg →
      make_api_call endpoint payload outcome = .obj [("error", .str msg)]) ∧
    (∀ status body, outcome = .response status body → 400 ≤ status →
      status < 600 →
      ∃ m, make_api_call endpoint payload outcome = .obj [("error", .str m)]) ∧
    (∀ status msg, outcome = .response status (.error msg) →
      ∃ m, make_api_call endpoint payload outcome = .obj [("error", .str m)]) ∧
    search_subsidies query ctx outcome =
      make_api_call "search"
        (.obj [("context", ctx),
          ("message", .obj [("descriptor", .obj [("name", .str query)])])])
        outcome ∧
    select_item provider_id item_id ctx outcome =
      make_api_call "select"
        (.obj [("context", ctx),
          ("message", .obj [("order",
            .obj [("provider", .obj [("id", .str provider_id)]),
              ("items", .arr [.obj [("id", .str item_id)]])])])])
        outcome ∧
    init_order provider_id item_id ctx outcome =
      make_api_call "init"
        (.obj [("context", ctx),
          ("message", .obj [("order",
            .obj [("provider", .obj [("id", .str provider_id)]),
              ("items", .arr [.obj [("id", .str item_id)]])])])])
        outcome ∧
    confirm_order provider_id item_id fulfillment_id customer_info ctx outcome =
      make_api_call "confirm"
        (.obj [("context", ctx),
          ("message", .obj [("order",
            .obj [("provider", .obj [("id", .str provider_id)]),
              ("items", .arr [.obj [("id", .str item_id)]]),
              ("fulfillments", .arr [.obj [("id", .str fulfillment_id),
                ("customer", customer_info)]])])])])
        outcome ∧
    check_status order_id ctx outcome =
      make_api_call "status"
        (.obj [("context", ctx), ("message", .obj [("order_id", .str order_id)])])
        outcome := by
  refine ⟨?_, ?_, ?_, ?_, rfl, rfl, rfl, rfl, rfl⟩
  · rintro status j rfl hlt
    simp only [make_api_call]
    rw [if_neg (by omega)]
  · rintro msg rfl
    rfl
  · rintro status body rfl h4 h6
    exact ⟨"HTTP error " ++ String.mk (natToChars status) ++ " for endpoint " ++
      endpoint, by simp only [make_api_call]; rw [if_pos ⟨h4, h6⟩]⟩
  · rintro status msg rfl
    by_cases hs : 400 ≤ status ∧ status < 600
    · exact ⟨_, by simp only [make_api_call]; rw [if_pos hs]⟩
    · exact ⟨msg, by simp only [make_api_call]; rw [if_neg hs]⟩

/-- Witness for C5: the four outcome classes at concrete inputs. -/
theorem C5_make_api_call_contract_witness :
    make_api_call "search" (.obj []) (.response 200 (.ok (.obj [("responses", .arr [])]))) =
      .obj [("responses", .arr [])] ∧
    make_api_call "search" (.obj []) (.transportError "connection refused") =
      .obj [("error", .str "connection refused")] ∧
    (∃ m, make_api_call "select" (.obj []) (.response 404 (.ok .null)) =
      .obj [("error", .str m)]) ∧
    (∃ m, make_api_call "status" (.obj []) (.response 200 (.error "bad json")) =
      .obj [("error", .str m)]) := by
  refine ⟨?_, ?_, ?_, ?_⟩
  · exact (C5_make_api_call_contract "search" "q" "p" "i" "f" "o" (.obj []) .null .null
      (.response 200 (.ok (.obj [("responses", .arr [])])))).1 200 _ rfl (by norm_num)
  · exact (C5_make_api_call_contract "search" "q" "p" "i" "f" "o" (.obj []) .null .null
      (.transportError "connection refused")).2.1 "connection refused" rfl
  · exact (C5_make_api_call_contract "select" "q" "p" "i" "f" "o" (.obj []) .null .null
      (.response 404 (.ok .null))).2.2.1 404 _ rfl (by norm_num) (by norm_num)
  · exact (C5_make_api_call_contract "status" "q" "p" "i" "f" "o" (.obj []) .null .null
      (.response 200 (.error "bad json"))).2.2.2.1 200 "bad json" rfl

/-- The scan described by the spec for order extraction: the `order`
sub-object of the first entry carrying `message.order`.  This definition
follows the claim's words and is compared against the embedded
`extract_order_details`. -/
def firstMessageOrder : List PyValue → Option PyValue
  | [] => none
  | e :: rest =>
    match e with
    | .obj kvs =>
      match assocLookup kvs "message" with
      | some (.obj mkvs) =>
        match assocLookup mkvs "order" with
        | some o => some o
        | none => firstMessageOrder rest
      | _ => firstMessageOrder rest
    | _ => firstMessageOrder rest

/-- A response entry of the shape the client produces: a dict whose
`message`, when present, is a dict. -/
def orderEntryOk (e : PyValue) : Bool :=
  match e with
  | .obj kvs =>
    match assocLookup kvs "message" with
    | none => true
    | some (.obj _) => true
    | some _ => false
  | _ => false

/-- The embedded scan agrees with the spec-side scan on well-shaped
entries. -/
theorem extractOrderScan_eq_spec (l : List PyValue)
    (h : ∀ e ∈ l, orderEntryOk e = true) :
    extractOrderScan l = .ok ((firstMessageOrder l).getD (.obj [])) := by
  induction l with
  | nil => rfl
  | cons e rest ih =>
    have he := h e (by simp)
    have hrest := ih (fun x hx => h x (by simp [hx]))
    match e with
    | .null | .bool _ | .num _ | .str _ | .arr _ => simp [orderEntryOk] at he
    | .obj kvs =>
      match hm : assocLookup kvs "message" with
      | none =>
        simp [extractOrderScan, pyContainsStr, hm, py_bind_ok,
          firstMessageOrder, hrest]
      | some m =>
        simp only [orderEntryOk, hm] at he
        match m with
        | .null | .bool _ | .num _ | .str _ | .arr _ => simp at he
        | .obj mkvs =>
          match ho : assocLookup mkvs "order" with
          | none =>
            simp [extractOrderScan, pyContainsStr, hm, pySubscript, ho,
              py_bind_ok, firstMessageOrder, hrest]
          | some o =>
            simp [extractOrderScan, pyContainsStr, hm, pySubscript, ho,
              py_bind_ok, firstMessageOrder]

/-- C7: on an invalid top-level shape (`None` or a dict without
`responses`) order extraction returns the empty mapping without raising,
and on a dict whose `responses` is an array of well-shaped entries it
returns the `order` sub-object of the first entry containing
`message.order` — the empty mapping when no entry has one. -/
theorem C7_extract_order_details_first_order (rd : PyValue) :
    ((rd = .null ∨ ∃ kvs, rd = .obj kvs ∧ assocLookup kvs "responses" = none) →
      extract_order_details rd = .ok (.obj [])) ∧
    (∀ kvs entries, rd = .obj kvs →
      assocLookup kvs "responses" = some (.arr entries) →
      (∀ e ∈ entries, orderEntryOk e = true) →
      extract_order_details rd = .ok ((firstMessageOrder entries).getD (.obj []))) := by
  constructor
  · rintro (rfl | ⟨kvs, rfl, hl⟩)
    · rfl
    · match kvs with
      | [] => rfl
      | p :: rest =>
        simp [extract_order_details, PyValue.truthy, pyContainsStr, hl,
          py_bind_ok, py_pure_eq]
  · rintro kvs entries rfl hl hok
    match kvs with
    | [] => simp [assocLookup] at hl
    | p :: rest =>
      simp only [extract_order_details, PyValue.truthy, List.isEmpty_cons,
        Bool.not_false, if_true, pyContainsStr, hl, Option.isSome_some,
        py_bind_ok, Bool.not_true, Bool.false_eq_true, if_false, pyGetD,
        Option.getD_some, pyIter]
      exact extractOrderScan_eq_spec entries hok

/-- Witness for C7: `None`, a dict without `responses`, a scan that finds
the order in the second entry, and a scan that finds none. -/
theorem C7_extract_order_details_first_order_witness :
    extract_order_details .null = .ok (.obj []) ∧
    extract_order_details (.obj [("error", .str "boom")]) = .ok (.obj []) ∧
    extract_order_details (.obj [("responses", .arr
      [.obj [("message", .obj [("ack", .bool true)])],
       .obj [("message", .obj [("order", .obj [("id", .str "ord-1")])])],
       .obj [("message", .obj [("order", .obj [("id", .str "ord-2")])])]])]) =
      .ok (.obj [("id", .str "ord-1")]) ∧
    extract_order_details (.obj [("responses", .arr
      [.obj [("message", .obj [("ack", .bool true)])]])]) = .ok (.obj []) := by
  refine ⟨?_, ?_, ?_, ?_⟩
  · exact (C7_extract_order_details_first_order .null).1 (Or.inl rfl)
  · exact (C7_extract_order_details_first_order (.obj [("error", .str "boom")])).1
      (Or.inr ⟨_, rfl, rfl⟩)
  · exact (C7_extract_order_details_first_order (.obj [("responses", .arr
      [.obj [("message", .obj [("ack", .bool true)])],
       .obj [("message", .obj [("order", .obj [("id", .str "ord-1")])])],
       .obj [("message", .obj [("order", .obj [("id", .str "ord-2")])])]])])).2
      [("responses", .arr
        [.obj [("message", .obj [("ack", .bool true)])],
         .obj [("message", .obj [("order", .obj [("id", .str "ord-1")])])],
         .obj [("message", .obj [("order", .obj [("id", .str "ord-2")])])]])]
      [.obj [("message", .obj [("ack", .bool true)])],
       .obj [("message", .obj [("order", .obj [("id", .str "ord-1")])])],
       .obj [("message", .obj [("order", .obj [("id", .str "ord-2")])])]]
      rfl rfl
      (by intro e he; simp only [List.mem_cons, List.not_mem_nil, or_false] at he
          rcases he with rfl | rfl | rfl <;> rfl)
  · exact (C7_extract_order_details_first_order (.obj [("responses", .arr
      [.obj [("message", .obj [("ack", .bool true)])]])])).2
      [("responses", .arr [.obj [("message", .obj [("ack", .bool true)])]])]
      [.obj [("message", .obj [("ack", .bool true)])]]
      rfl rfl
      (by intro e he; simp only [List.mem_cons, List.not_mem_nil, or_false] at he
          rcases he with rfl <;> rfl)

theorem digitChar_isDigit (d : Nat) : (digitChar d).isDigit = true := by
  have h : d % 10 < 10 := Nat.mod_lt _ (by norm_num)
  unfold digitChar
  set m := d % 10 with hm
  interval_cases m <;> decide

theorem natToCharsGo_digits (fuel : Nat) :
    ∀ n, ∀ c ∈ natToCharsGo fuel n, c.isDigit = true := by
  induction fuel with
  | zero => intro n c hc; simp [natToCharsGo] at hc
  | succ fuel ih =>
    intro n c hc
    rw [natToCharsGo] at hc
    by_cases h0 : n = 0
    · simp [h0] at hc
    · rw [if_neg h0] at hc
      rcases List.mem_append.1 hc with h | h
      · exact ih (n / 10) c h
      · simp only [List.mem_singleton] at h
        subst h
        exact digitChar_isDigit _

theorem natToChars_digits (n : Nat) : ∀ c ∈ natToChars n, c.isDigit = true := by
  intro c hc
  rw [natToChars] at hc
  by_cases h0 : n = 0
  · simp [h0] at hc; subst hc; decide
  · rw [if_neg h0] at hc; exact natToCharsGo_digits n n c hc

theorem natToCharsGo_length_le (fuel : Nat) :
    ∀ n k, n < 10 ^ k → (natToCharsGo fuel n).length ≤ k := by
  induction fuel with
  | zero => intro n k _; simp [natToCharsGo]
  | succ fuel ih =>
    intro n k hn
    rw [natToCharsGo]
    by_cases h0 : n = 0
    · simp [h0]
    · rw [if_neg h0]
      match k with
      | 0 => omega
      | j + 1 =>
        have hdiv : n / 10 < 10 ^ j := by
          rw [Nat.div_lt_iff_lt_mul (by norm_num)]
          calc n < 10 ^ (j + 1) := hn
          _ = 10 ^ j * 10 := by ring
        simp only [List.length_append, List.length_singleton]
        have := ih (n / 10) j hdiv
        omega

theorem natToChars_length_le (w n : Nat) (hw : 1 ≤ w) (hn : n < 10 ^ w) :
    (natToChars n).length ≤ w := by
  rw [natToChars]
  by_cases h0 : n = 0
  · simp [h0]; omega
  · rw [if_neg h0]; exact natToCharsGo_length_le n n w hn

theorem padChars_length (w n : Nat) (hw : 1 ≤ w) (hn : n < 10 ^ w) :
    (padChars w n).length = w := by
  have hle := natToChars_length_le w n hw hn
  simp only [padChars, List.length_append, List.length_replicate]
  omega

theorem padChars_digits (w n : Nat) : ∀ c ∈ padChars w n, c.isDigit = true := by
  intro c hc
  rcases List.mem_append.1 hc with h | h
  · have := List.eq_of_mem_replicate h
    subst this; decide
  · exact natToChars_digits n c h

/-- A character list of length 2 splits into its two elements. -/
theorem list_len_two {α : Type} (l : List α) (h : l.length = 2) :
    ∃ a b, l = [a, b] := by
  match l with
  | [a, b] => exact ⟨a, b, rfl⟩

/-- A character list of length 4 splits into its four elements. -/
theorem list_len_four {α : Type} (l : List α) (h : l.length = 4) :
    ∃ a b c d, l = [a, b, c, d] := by
  match l with
  | [a, b, c, d] => exact ⟨a, b, c, d, rfl⟩

/-- A character list of length 6 splits into its six elements. -/
theorem list_len_six {α : Type} (l : List α) (h : l.length = 6) :
    ∃ a b c d e f, l = [a, b, c, d, e, f] := by
  match l with
  | [a, b, c, d, e, f] => exact ⟨a, b, c, d, e, f, rfl⟩

/-- Shape check for a UTC ISO-8601 timestamp with microseconds,
`YYYY-MM-DDTHH:MM:SS.ffffffZ` (the claim's format). -/
def isIsoMicroZ (s : String) : Bool :=
  match s.data with
  | [y1, y2, y3, y4, a1, o1, o2, a2, d1, d2, t1, h1, h2, b1, n1, n2, b2,
     x1, x2, p1, f1, f2, f3, f4, f5, f6, z1] =>
    y1.isDigit && y2.isDigit && y3.isDigit && y4.isDigit && a1 == '-' &&
    o1.isDigit && o2.isDigit && a2 == '-' && d1.isDigit && d2.isDigit &&
    t1 == 'T' && h1.isDigit && h2.isDigit && b1 == ':' && n1.isDigit &&
    n2.isDigit && b2 == ':' && x1.isDigit && x2.isDigit && p1 == '.' &&
    f1.isDigit && f2.isDigit && f3.isDigit && f4.isDigit && f5.isDigit &&
    f6.isDigit && z1 == 'Z'
  | _ => false

/-- The formatted timestamp has the claimed shape whenever the clock
fields fit their print widths (true of every real UTC instant). -/
theorem strftimeTimestamp_iso (dt : PyDateTime)
    (hy : dt.year < 10000) (hmo : dt.month < 100) (hd : dt.day < 100)
    (hh : dt.hour < 100) (hmi : dt.minute < 100) (hs : dt.second < 100)
    (hus : dt.microsecond < 1000000) :
    isIsoMicroZ (strftimeTimestamp dt) = true := by
  obtain ⟨y1, y2, y3, y4, hy4⟩ := list_len_four _
    (padChars_length 4 dt.year (by norm_num) (by norm_num; omega))
  obtain ⟨o1, o2, ho2⟩ := list_len_two _
    (padChars_length 2 dt.month (by norm_num) (by norm_num; omega))
  obtain ⟨d1, d2, hd2⟩ := list_len_two _
    (padChars_length 2 dt.day (by norm_num) (by norm_num; omega))
  obtain ⟨h1, h2, hh2⟩ := list_len_two _
    (padChars_length 2 dt.hour (by norm_num) (by norm_num; omega))
  obtain ⟨n1, n2, hn2⟩ := list_len_two _
    (padChars_length 2 dt.minute (by norm_num) (by norm_num; omega))
  obtain ⟨x1, x2, hx2⟩ := list_len_two _
    (padChars_length 2 dt.second (by norm_num) (by norm_num; omega))
  obtain ⟨f1, f2, f3, f4, f5, f6, hf6⟩ := list_len_six _
    (padChars_length 6 dt.microsecond (by norm_num) (by norm_num; omega))
  have gy := padChars_digits 4 dt.year
  have go := padChars_digits 2 dt.month
  have gd := padChars_digits 2 dt.day
  have gh := padChars_digits 2 dt.hour
  have gn := padChars_digits 2 dt.minute
  have gx := padChars_digits 2 dt.second
  have gf := padChars_digits 6 dt.microsecond
  rw [hy4] at gy; rw [ho2] at go; rw [hd2] at gd; rw [hh2] at gh
  rw [hn2] at gn; rw [hx2] at gx; rw [hf6] at gf
  simp only [strftimeTimestamp, hy4, ho2, hd2, hh2, hn2, hx2, hf6]
  simp only [isIsoMicroZ, List.cons_append, List.nil_append, List.append_assoc]
  simp only [gy y1 (by simp), gy y2 (by simp), gy y3 (by simp), gy y4 (by simp),
    go o1 (by simp), go o2 (by simp), gd d1 (by simp), gd d2 (by simp),
    gh h1 (by simp), gh h2 (by simp), gn n1 (by simp), gn n2 (by simp),
    gx x1 (by simp), gx x2 (by simp), gf f1 (by simp), gf f2 (by simp),
    gf f3 (by simp), gf f4 (by simp), gf f5 (by simp), gf f6 (by simp)]
  decide

/-- C6: the context builder is a total function; it places the two
independently drawn identifiers in `transaction_id` and `message_id`, so
two consecutive calls with the same arguments but fresh draws produce
contexts differing in both fields; the `timestamp` field is the
`strftime`-formatted UTC instant and has the `YYYY-MM-DDTHH:MM:SS.ffffffZ`
shape; and each network identity field resolves as explicit argument over
environment value over built-in default. -/
theorem C6_create_beckn_context
    (action domain city_code country_code : String)
    (bap_id bap_uri bpp_id bpp_uri : Option String)
    (env : String → Option String) (tx1 msg1 tx2 msg2 : String)
    (now : PyDateTime)
    (htx : tx1 ≠ tx2) (hmsg : msg1 ≠ msg2)
    (hy : now.year < 10000) (hmo : now.month < 100) (hd : now.day < 100)
    (hh : now.hour < 100) (hmi : now.minute < 100) (hs : now.second < 100)
    (hus : now.microsecond < 1000000) :
    (∀ tx msg, assocLookup
        (match create_beckn_context action domain city_code country_code
          bap_id bap_uri bpp_id bpp_uri env tx msg now with
         | .obj kvs => kvs | _ => []) "transaction_id" = some (.str tx) ∧
      assocLookup
        (match create_beckn_context action domain city_code country_code
          bap_id bap_uri bpp_id bpp_uri env tx msg now with
         | .obj kvs => kvs | _ => []) "message_id" = some (.str msg)) ∧
    create_beckn_context action domain city_code country_code
        bap_id bap_uri bpp_id bpp_uri env tx1 msg1 now ≠
      create_beckn_context action domain city_code country_code
        bap_id bap_uri bpp_id bpp_uri env tx2 msg2 now ∧
    (∀ tx msg, assocLookup
        (match create_beckn_context action domain city_code country_code
          bap_id bap_uri bpp_id bpp_uri env tx msg now with
         | .obj kvs => kvs | _ => []) "timestamp" =
      some (.str (strftimeTimestamp now))) ∧
    isIsoMicroZ (strftimeTimestamp now) = true ∧
    (∀ a, a ≠ "" →
      pyOrStr (some a) (getenvD env "BECKN_BAP_ID" defaultBapId) = a) ∧
    (∀ k d e, env k = some e → pyOrStr none (getenvD env k d) = e) ∧
    (∀ k d, env k = none → pyOrStr none (getenvD env k d) = d) ∧
    (∀ tx msg, assocLookup
        (match create_beckn_context action domain city_code country_code
          bap_id bap_uri bpp_id bpp_uri env tx msg now with
         | .obj kvs => kvs | _ => []) "bap_id" =
        some (.str (pyOrStr bap_id (getenvD env "BECKN_BAP_ID" defaultBapId))) ∧
      assocLookup
        (match create_beckn_context action domain city_code country_code
          bap_id bap_uri bpp_id bpp_uri env tx msg now with
         | .obj kvs => kvs | _ => []) "bap_uri" =
        some (.str (pyOrStr bap_uri (getenvD env "BECKN_BAP_URI" defaultBapUri))) ∧
      assocLookup
        (match create_beckn_context action domain city_code country_code
          bap_id bap_uri bpp_id bpp_uri env tx msg now with
         | .obj kvs => kvs | _ => []) "bpp_id" =
        some (.str (pyOrStr bpp_id (getenvD env "BECKN_BPP_ID" defaultBppId))) ∧
      assocLookup
        (match create_beckn_context action domain city_code country_code
          bap_id bap_uri bpp_id bpp_uri env tx msg now with
         | .obj kvs => kvs | _ => []) "bpp_uri" =
        some (.str (pyOrStr bpp_uri (getenvD env "BECKN_BPP_URI" defaultBppUri)))) := by
  refine ⟨?_, ?_, ?_, strftimeTimestamp_iso now hy hmo hd hh hmi hs hus,
    ?_, ?_, ?_, ?_⟩
  · intro tx msg
    constructor <;> rfl
  · intro hcontra
    apply htx
    have h1 := congrArg (fun v => assocLookup
      (match v with | PyValue.obj kvs => kvs | _ => []) "transaction_id") hcontra
    simpa [create_beckn_context, assocLookup] using h1
  · intro tx msg; rfl
  · intro a ha
    simp [pyOrStr, String.isEmpty_iff, ha]
  · intro k d e he
    simp [pyOrStr, getenvD, he]
  · intro k d he
    simp [pyOrStr, getenvD, he]
  · intro tx msg
    refine ⟨rfl, rfl, rfl, rfl⟩

/-- Witness for C6: concrete draws, instant and environment exercising all
three precedence levels across the identity fields. -/
theorem C6_create_beckn_context_witness :
    (create_beckn_context "search" "deg:schemes" "NANP:628" "USA"
        (some "my-bap") none none none
        (fun k => if k = "BECKN_BPP_ID" then some "env-bpp" else none)
        "uuid-tx-1" "uuid-msg-1"
        ⟨2025, 6, 1, 12, 30, 59, 123456⟩ ≠
      create_beckn_context "search" "deg:schemes" "NANP:628" "USA"
        (some "my-bap") none none none
        (fun k => if k = "BECKN_BPP_ID" then some "env-bpp" else none)
        "uuid-tx-2" "uuid-msg-2"
        ⟨2025, 6, 1, 12, 30, 59, 123456⟩) ∧
    isIsoMicroZ (strftimeTimestamp ⟨2025, 6, 1, 12, 30, 59, 123456⟩) = true ∧
    strftimeTimestamp ⟨2025, 6, 1, 12, 30, 59, 123456⟩ =
      "2025-06-01T12:30:59.123456Z" ∧
    pyOrStr (some "my-bap")
      (getenvD (fun k => if k = "BECKN_BPP_ID" then some "env-bpp" else none)
        "BECKN_BAP_ID" defaultBapId) = "my-bap" ∧
    pyOrStr none
      (getenvD (fun k => if k = "BECKN_BPP_ID" then some "env-bpp" else none)
        "BECKN_BPP_ID" defaultBppId) = "env-bpp" ∧
    pyOrStr none
      (getenvD (fun k => if k = "BECKN_BPP_ID" then some "env-bpp" else none)
        "BECKN_BPP_URI" defaultBppUri) = defaultBppUri := by
  have h := C6_create_beckn_context "search" "deg:schemes" "NANP:628" "USA"
    (some "my-bap") none none none
    (fun k => if k = "BECKN_BPP_ID" then some "env-bpp" else none)
    "uuid-tx-1" "uuid-msg-1" "uuid-tx-2" "uuid-msg-2"
    ⟨2025, 6, 1, 12, 30, 59, 123456⟩
    (by decide) (by decide)
    (by norm_num) (by norm_num) (by norm_num) (by norm_num) (by norm_num)
    (by norm_num) (by norm_num)
  refine ⟨h.2.1, h.2.2.2.1, by decide, ?_, ?_, ?_⟩
  · exact h.2.2.2.2.1 "my-bap" (by decide)
  · exact h.2.2.2.2.2.1 "BECKN_BPP_ID" defaultBppId "env-bpp" (by simp)
  · exact h.2.2.2.2.2.2.1 "BECKN_BPP_URI" defaultBppUri (by simp)

/-- A minimal well-shaped trading catalog around the given items. -/
def mkTradingCatalog (items : List PyValue) : PyValue :=
  .obj [("responses", .arr [.obj [("message", .obj [("catalog", .obj
    [("providers", .arr [.obj [("id", .str "prov-1"),
      ("descriptor", .obj [("name", .str "Trader")]),
      ("items", .arr items)]])])])]])]

/-- An opportunity item whose price value is the given raw value. -/
def mkPricedItem (v : PyValue) : PyValue :=
  .obj [("id", .str "opp-1"), ("descriptor", .obj [("name", .str "Energy Offer")]),
    ("price", .obj [("value", v)])]

/-- An opportunity item with the given display name and no type code. -/
def mkNamedItem (name : PyValue) : PyValue :=
  .obj [("id", .str "opp-1"), ("descriptor", .obj [("name", name)]),
    ("price", .obj [("value", .str "0.10")])]

/-- The record the `api_client.py` trading extractor produces for
`mkPricedItem`, as a function of the parsed price. -/
def apiPricedOppQ (q : ℚ) : PyValue :=
  .obj [("id", .str "opp-1"), ("provider_id", .str "prov-1"),
    ("provider_name", .str "Trader"), ("type", .str "p2p_sharing"),
    ("name", .str "Energy Offer"), ("description", .str ""),
    ("price_per_kwh", .num q), ("currency", .str "USD"),
    ("tags", .obj [("energy_available", .obj [("amount", .str "0")]),
      ("source_type", .str "Solar")]),
    ("location", .null)]

/-- The record the `api_client.py` trading extractor produces for
`mkNamedItem`. -/
def apiNamedOpp (nm : String) : PyValue :=
  .obj [("id", .str "opp-1"), ("provider_id", .str "prov-1"),
    ("provider_name", .str "Trader"),
    ("type", .str (if strContainsSub (pyLower nm) "sell" then "sell_excess"
      else if strContainsSub (pyLower nm) "buy" then "buy_energy"
      else "p2p_sharing")),
    ("name", .str nm), ("description", .str ""),
    ("price_per_kwh", .num (tradingApiParsePrice (.str "0.10"))),
    ("currency", .str "USD"),
    ("tags", .obj [("energy_available", .obj [("amount", .str "0")]),
      ("source_type", .str "Solar")]),
    ("location", .null)]

/-- Projection: the named field of the first extracted record. -/
def firstField (k : String) (r : Py (List PyValue)) : Option PyValue :=
  match r with
  | .ok (o :: _) =>
    match o with
    | .obj kvs => assocLookup kvs k
    | _ => none
  | _ => none

/-- C2 counterexample: the claim fails for the extractor the agents
import.  The `utils.py` `extract_energy_trading_opportunities` converts
the price with a bare `float(...)` and raises `ValueError` on the
suffixed string "0.20 USD/kWH" instead of yielding 0.20. -/
theorem C2_counterexample_utils_price_raises :
    extract_energy_trading_opportunities
      (mkTradingCatalog [mkPricedItem (.str "0.20 USD/kWH")]) =
    .error .valueError := by rfl

/-- C2 amended: the price fallback chain holds for the `api_client.py`
copy of the trading extractor: a plain numeric string parses ("0.18" to
0.18), the "USD/kWH" suffix is stripped ("0.20 USD/kWH" to 0.20), an
already-numeric value passes through, an unparsable value yields 0.0, and
the extractor returns normally on every price string; the `utils.py` copy
instead converts with bare `float()` and raises on non-numeric strings. -/
theorem C2_amended_api_price_chain :
    (∀ v : PyValue, extract_energy_trading_opportunities_api
      (mkTradingCatalog [mkPricedItem v]) =
      .ok [apiPricedOppQ (tradingApiParsePrice v)]) ∧
    tradingApiParsePrice (.str "0.18") = 18/100 ∧
    tradingApiParsePrice (.str "0.20 USD/kWH") = 20/100 ∧
    (∀ q : ℚ, tradingApiParsePrice (.num q) = q) ∧
    tradingApiParsePrice (.str "not-a-number") = 0 ∧
    (∀ s : String, ∃ q : ℚ, extract_energy_trading_opportunities_api
      (mkTradingCatalog [mkPricedItem (.str s)]) = .ok [apiPricedOppQ q]) := by
  refine ⟨fun v => rfl, ?_, ?_, fun q => rfl, rfl,
    fun s => ⟨tradingApiParsePrice (.str s), rfl⟩⟩
  · have h : tradingApiParsePrice (.str "0.18") =
        1 * (((0 : ℕ) : ℚ) + ((18 : ℕ) : ℚ) / pow10 2) := rfl
    rw [h]
    norm_num [pow10]
  · have h : tradingApiParsePrice (.str "0.20 USD/kWH") =
        1 * (((0 : ℕ) : ℚ) + ((20 : ℕ) : ℚ) / pow10 2) := rfl
    rw [h]
    norm_num [pow10]

/-- C3 counterexample: the claim fails for the extractor the agents
import.  On an item with no type code named "Community Share" the
`utils.py` trading extractor reports type "unknown" (the `descriptor.code`
default), not the claimed `p2p_sharing`. -/
theorem C3_counterexample_utils_type_unknown :
    firstField "type" (extract_energy_trading_opportunities
      (mkTradingCatalog [mkNamedItem (.str "Community Share")])) =
      some (.str "unknown") ∧
    ("unknown" : String) ≠ "p2p_sharing" := by
  exact ⟨rfl, by decide⟩

/-- C3 amended: the name-keyword classification holds for the
`api_client.py` copy of the trading extractor (for every display name,
with or without a code): "sell" substring of the lowercased name gives
`sell_excess`, "buy" gives `buy_energy`, anything else gives
`p2p_sharing`; the spec's three examples come out as stated.  The
`utils.py` copy instead reports the item's `descriptor.code`, defaulting
to "unknown". -/
theorem C3_amended_api_name_classification :
    (∀ nm : String, extract_energy_trading_opportunities_api
      (mkTradingCatalog [mkNamedItem (.str nm)]) = .ok [apiNamedOpp nm]) ∧
    firstField "type" (extract_energy_trading_opportunities_api
      (mkTradingCatalog [mkNamedItem (.str "Peak Hour Selling")])) =
      some (.str "sell_excess") ∧
    firstField "type" (extract_energy_trading_opportunities_api
      (mkTradingCatalog [mkNamedItem (.str "Off-Peak Buy")])) =
      some (.str "buy_energy") ∧
    firstField "type" (extract_energy_trading_opportunities_api
      (mkTradingCatalog [mkNamedItem (.str "Community Share")])) =
      some (.str "p2p_sharing") := by
  exact ⟨fun nm => rfl, rfl, rfl, rfl⟩

/-- A tag-list entry keyed by its descriptor's `description`. -/
def mkTagEntryD (k v : String) : PyValue :=
  .obj [("descriptor", .obj [("description", .str k)]), ("value", .str v)]

/-- A tag-list entry keyed only by its descriptor's `code`. -/
def mkTagEntryC (k v : String) : PyValue :=
  .obj [("descriptor", .obj [("code", .str k)]), ("value", .str v)]

/-- A tag group with a `description` and the given list entries. -/
def mkTagGroup (d : String) (entries : List PyValue) : PyValue :=
  .obj [("descriptor", .obj [("description", .str d)]), ("list", .arr entries)]

/-- A tag group whose descriptor has only a `code`. -/
def mkTagGroupCode (c : String) (entries : List PyValue) : PyValue :=
  .obj [("descriptor", .obj [("code", .str c)]), ("list", .arr entries)]

/-- An item carrying exactly the given tag groups. -/
def mkItemWithTags (groups : List PyValue) : PyValue :=
  .obj [("tags", .arr groups)]

/-- Spec-side inner fold for description-keyed entries: skip entries with
an empty key or value, otherwise record last-write-wins. -/
def innerFoldFrom (tv : List (String × PyValue)) (es : List (String × String)) :
    List (String × PyValue) :=
  es.foldl (fun tv e =>
    if e.1 = "" ∨ e.2 = "" then tv else assocSet tv e.1 (.str e.2)) tv

theorem assocSet_length_le (l : List (String × PyValue)) (k : String) (v : PyValue) :
    (assocSet l k v).length ≤ l.length + 1 := by
  induction l with
  | nil => simp [assocSet]
  | cons p rest ih =>
    simp only [assocSet]
    by_cases h : p.1 = k
    · rw [if_pos h]; simp
    · rw [if_neg h]; simpa using ih

theorem assocSet_length_ge (l : List (String × PyValue)) (k : String) (v : PyValue) :
    l.length ≤ (assocSet l k v).length := by
  induction l with
  | nil => simp [assocSet]
  | cons p rest ih =>
    simp only [assocSet]
    by_cases h : p.1 = k
    · rw [if_pos h]; simp
    · rw [if_neg h]; simpa using ih

theorem assocSet_absent (l : List (String × PyValue)) (k : String) (v : PyValue)
    (h : assocLookup l k = none) : assocSet l k v = l ++ [(k, v)] := by
  induction l with
  | nil => rfl
  | cons p rest ih =>
    simp only [assocLookup] at h
    by_cases hk : p.1 = k
    · rw [if_pos hk] at h; exact absurd h (by simp)
    · rw [if_neg hk] at h
      simp only [assocSet, if_neg hk, List.cons_append, List.cons.injEq, true_and]
      exact ih h

theorem assocLookup_append_single (l : List (String × PyValue))
    (k k1 : String) (v1 : PyValue) (h : assocLookup l k = none) (hne : k1 ≠ k) :
    assocLookup (l ++ [(k1, v1)]) k = none := by
  induction l with
  | nil => simp [assocLookup, hne]
  | cons p rest ih =>
    simp only [assocLookup] at h ⊢
    by_cases hk : p.1 = k
    · rw [if_pos hk] at h; exact absurd h (by simp)
    · rw [if_neg hk] at h ⊢
      exact ih h

theorem innerFoldFrom_length_le (es : List (String × String)) :
    ∀ tv, (innerFoldFrom tv es).length ≤ tv.length + es.length := by
  induction es with
  | nil => intro tv; simp [innerFoldFrom]
  | cons e rest ih =>
    intro tv
    simp only [innerFoldFrom, List.foldl_cons]
    by_cases h : e.1 = "" ∨ e.2 = ""
    · rw [if_pos h]
      have := ih tv
      simp only [innerFoldFrom] at this
      simp only [List.length_cons]
      omega
    · rw [if_neg h]
      have h1 := ih (assocSet tv e.1 (.str e.2))
      simp only [innerFoldFrom] at h1
      have h2 := assocSet_length_le tv e.1 (.str e.2)
      simp only [List.length_cons]
      omega

theorem innerFoldFrom_length_mono (es : List (String × String)) :
    ∀ tv, tv.length ≤ (innerFoldFrom tv es).length := by
  induction es with
  | nil => intro tv; simp [innerFoldFrom]
  | cons e rest ih =>
    intro tv
    simp only [innerFoldFrom, List.foldl_cons]
    by_cases h : e.1 = "" ∨ e.2 = ""
    · rw [if_pos h]
      have := ih tv
      simpa [innerFoldFrom] using this
    · rw [if_neg h]
      have h1 := ih (assocSet tv e.1 (.str e.2))
      simp only [innerFoldFrom] at h1
      have h2 := assocSet_length_ge tv e.1 (.str e.2)
      omega

theorem innerFoldFrom_ne_nil (es : List (String × String))
    (h : ∃ e ∈ es, e.1 ≠ "" ∧ e.2 ≠ "") : innerFoldFrom [] es ≠ [] := by
  induction es with
  | nil => simp at h
  | cons e rest ih =>
    simp only [innerFoldFrom, List.foldl_cons]
    rcases h with ⟨e1, he1, hk, hv⟩
    simp only [List.mem_cons] at he1
    rcases he1 with rfl | hmem
    · rw [if_neg (by tauto)]
      intro hcontra
      have h1 := innerFoldFrom_length_mono rest (assocSet [] e1.1 (.str e1.2))
      simp only [innerFoldFrom] at h1
      rw [hcontra] at h1
      simp [assocSet] at h1
    · by_cases hskip : e.1 = "" ∨ e.2 = ""
      · rw [if_pos hskip]
        exact ih ⟨e1, hmem, hk, hv⟩
      · rw [if_neg hskip]
        intro hcontra
        have h1 := innerFoldFrom_length_mono rest (assocSet [] e.1 (.str e.2))
        simp only [innerFoldFrom] at h1
        rw [hcontra] at h1
        simp [assocSet] at h1

theorem str_isEmpty_false {s : String} (h : s ≠ "") : s.isEmpty = false := by
  cases he : s.isEmpty
  · rfl
  · exact absurd ((String.isEmpty_iff s).1 he) h

theorem tagEntryStepDesc_mkD (tv : List (String × PyValue)) (k v : String) :
    tagEntryStepDesc tv (mkTagEntryD k v) =
    .ok (if k = "" ∨ v = "" then tv else assocSet tv k (.str v)) := by
  have h0 : ("" : String).isEmpty = true := rfl
  by_cases hk : k = ""
  · subst hk
    simp [tagEntryStepDesc, mkTagEntryD, pyGetD, pyGet, assocLookup,
      PyValue.truthy, py_bind_ok, py_pure_eq, h0]
  · have hkf := str_isEmpty_false hk
    by_cases hv : v = ""
    · subst hv
      simp [tagEntryStepDesc, mkTagEntryD, pyGetD, pyGet, assocLookup,
        PyValue.truthy, py_bind_ok, py_pure_eq, hk, hkf, h0]
    · have hvf := str_isEmpty_false hv
      simp [tagEntryStepDesc, mkTagEntryD, pyGetD, pyGet, assocLookup,
        PyValue.truthy, py_bind_ok, py_pure_eq, hk, hv, hkf, hvf,
        pyKeyToString]

theorem tagEntries_fold (es : List (String × String)) :
    ∀ tv, (es.map fun e => mkTagEntryD e.1 e.2).foldlM tagEntryStepDesc tv =
      .ok (innerFoldFrom tv es) := by
  induction es with
  | nil => intro tv; rfl
  | cons e rest ih =>
    intro tv
    by_cases h : e.1 = "" ∨ e.2 = ""
    · simp only [List.map_cons, List.foldlM_cons, tagEntryStepDesc_mkD,
        if_pos h, py_bind_ok, innerFoldFrom, List.foldl_cons]
      simpa [innerFoldFrom] using ih tv
    · simp only [List.map_cons, List.foldlM_cons, tagEntryStepDesc_mkD,
        if_neg h, py_bind_ok, innerFoldFrom, List.foldl_cons]
      simpa [innerFoldFrom] using ih (assocSet tv e.1 (.str e.2))

theorem tagGroupStepDesc_mk (acc : List (String × PyValue)) (d : String)
    (es : List (String × String)) :
    tagGroupStepDesc acc (mkTagGroup d (es.map fun e => mkTagEntryD e.1 e.2)) =
    .ok (if d = "" then acc
      else if (innerFoldFrom [] es).isEmpty then acc
      else assocSet acc d (.obj (innerFoldFrom [] es))) := by
  have h0 : ("" : String).isEmpty = true := rfl
  by_cases hd : d = ""
  · subst hd
    simp [tagGroupStepDesc, mkTagGroup, pyGetD, pyGet, assocLookup,
      PyValue.truthy, py_bind_ok, py_pure_eq, h0]
  · have hdf := str_isEmpty_false hd
    cases hin : (innerFoldFrom [] es).isEmpty
    · simp [tagGroupStepDesc, mkTagGroup, pyGetD, pyGet, assocLookup,
        PyValue.truthy, py_bind_ok, py_pure_eq, hd, hdf, pyIter,
        tagEntries_fold, hin, pyKeyToString]
    · simp [tagGroupStepDesc, mkTagGroup, pyGetD, pyGet, assocLookup,
        PyValue.truthy, py_bind_ok, py_pure_eq, hd, hdf, pyIter,
        tagEntries_fold, hin]

/-- Spec-side outer fold over tag groups: skip groups with an empty
description or no recorded entries, record last-write-wins otherwise. -/
def outerFoldFrom (acc : List (String × PyValue))
    (gs : List (String × List (String × String))) : List (String × PyValue) :=
  gs.foldl (fun acc g =>
    if g.1 = "" then acc
    else if (innerFoldFrom [] g.2).isEmpty then acc
    else assocSet acc g.1 (.obj (innerFoldFrom [] g.2))) acc

/-- A whole item fixture: `N` tag groups, each a description plus `M`
description-keyed entries. -/
def mkFix (gs : List (String × List (String × String))) : PyValue :=
  mkItemWithTags (gs.map fun g => mkTagGroup g.1 (g.2.map fun e => mkTagEntryD e.1 e.2))

theorem extractTagsDesc_fix_aux (gs : List (String × List (String × String))) :
    ∀ acc, (gs.map fun g => mkTagGroup g.1
        (g.2.map fun e => mkTagEntryD e.1 e.2)).foldlM tagGroupStepDesc acc =
      .ok (outerFoldFrom acc gs) := by
  induction gs with
  | nil => intro acc; rfl
  | cons g rest ih =>
    intro acc
    by_cases hd : g.1 = ""
    · simp only [List.map_cons, List.foldlM_cons, tagGroupStepDesc_mk,
        if_pos hd, py_bind_ok, outerFoldFrom, List.foldl_cons]
      simpa [outerFoldFrom] using ih acc
    · cases hin : (innerFoldFrom [] g.2).isEmpty
      · simp only [List.map_cons, List.foldlM_cons, tagGroupStepDesc_mk,
          if_neg hd, hin, Bool.false_eq_true, if_false, py_bind_ok,
          outerFoldFrom, List.foldl_cons]
        simpa [outerFoldFrom] using
          ih (assocSet acc g.1 (.obj (innerFoldFrom [] g.2)))
      · simp only [List.map_cons, List.foldlM_cons, tagGroupStepDesc_mk,
          if_neg hd, hin, if_true, py_bind_ok, outerFoldFrom, List.foldl_cons]
        simpa [outerFoldFrom] using ih acc

theorem extractTagsDesc_fix (gs : List (String × List (String × String))) :
    extractTagsDesc (mkFix gs) = .ok (outerFoldFrom [] gs) := by
  simp only [extractTagsDesc, mkFix, mkItemWithTags, pyGetD, assocLookup,
    if_pos rfl, Option.getD_some, py_bind_ok, pyIter]
  exact extractTagsDesc_fix_aux gs []

theorem outerFold_map (gs : List (String × List (String × String))) :
    ∀ acc, gs.Pairwise (fun a b => a.1 ≠ b.1) →
    (∀ g ∈ gs, g.1 ≠ "") →
    (∀ g ∈ gs, innerFoldFrom [] g.2 ≠ []) →
    (∀ g ∈ gs, assocLookup acc g.1 = none) →
    outerFoldFrom acc gs =
      acc ++ gs.map (fun g => (g.1, .obj (innerFoldFrom [] g.2))) := by
  induction gs with
  | nil => intro acc _ _ _ _; simp [outerFoldFrom]
  | cons g rest ih =>
    intro acc hpw hne hin habs
    have hd := hne g (by simp)
    have hi : (innerFoldFrom [] g.2).isEmpty = false := by
      cases hq : (innerFoldFrom [] g.2).isEmpty
      · rfl
      · exact absurd (List.isEmpty_iff.1 hq) (hin g (by simp))
    have ha := habs g (by simp)
    simp only [outerFoldFrom, List.foldl_cons, if_neg hd, hi,
      Bool.false_eq_true, if_false, assocSet_absent acc g.1 _ ha,
      List.map_cons]
    have hpw1 := (List.pairwise_cons.1 hpw)
    have hrec := ih (acc ++ [(g.1, .obj (innerFoldFrom [] g.2))])
      hpw1.2 (fun x hx => hne x (by simp [hx])) (fun x hx => hin x (by simp [hx]))
      (fun x hx => assocLookup_append_single acc x.1 g.1 _
        (habs x (by simp [hx])) (hpw1.1 x hx))
    simp only [outerFoldFrom] at hrec ⊢
    rw [hrec]
    simp

/-- A subsidy catalog whose single item carries exactly the given tag
group (the provider has a fulfillment, so the subsidies extractor runs
through). -/
def c4Catalog (g : PyValue) : PyValue :=
  .obj [("responses", .arr [.obj [("message", .obj [("catalog", .obj
    [("providers", .arr [.obj [("id", .str "prov-1"),
      ("descriptor", .obj [("name", .str "Agency")]),
      ("fulfillments", .arr [.obj [("id", .str "f-1")]]),
      ("items", .arr [.obj [("id", .str "sub-1"),
        ("tags", .arr [g])]])]])])])]])]

/-- C4 counterexample: a tag group whose descriptor has a `code` but no
`description` is dropped entirely — there is no fallback to `code` for
the outer key, contrary to the claim.  The same group with the same text
as a `description` is kept, so the loss is attributable solely to the
missing outer-key fallback. -/
theorem C4_counterexample_no_outer_code_fallback :
    firstField "tags" (extract_subsidies_from_response
      (c4Catalog (mkTagGroupCode "ELIGIBILITY" [mkTagEntryD "KEY" "VAL"]))) =
      some (.obj []) ∧
    firstField "tags" (extract_subsidies_from_response
      (c4Catalog (mkTagGroup "ELIGIBILITY" [mkTagEntryD "KEY" "VAL"]))) =
      some (.obj [("ELIGIBILITY", .obj [("KEY", .str "VAL")])]) :=
  ⟨rfl, rfl⟩

/-- C4 amended: tag extraction (the loop shared by the subsidy, installer,
program and utils trading extractors, embedded as `extractTagsDesc`) uses
the group's `description` alone as outer key — a group lacking it is
skipped even when a `code` is present; the inner key is the entry's
`description` falling back to `code`; entries lacking both, or lacking a
value, are skipped, and a group none of whose entries is recorded is
dropped; duplicate inner keys keep the last value; and a fixture of N
groups with nonempty pairwise-distinct descriptions, each with at least
one recorded entry, yields exactly N outer keys with at most M entries
for a group of M list entries. -/
theorem C4_amended_tag_extraction :
    (∀ (c : String) (entries : List PyValue),
      extractTagsDesc (mkItemWithTags [mkTagGroupCode c entries]) = .ok []) ∧
    (∀ d k v : String, d ≠ "" → k ≠ "" → v ≠ "" →
      extractTagsDesc (mkItemWithTags [mkTagGroup d [mkTagEntryC k v]]) =
        .ok [(d, .obj [(k, .str v)])]) ∧
    (∀ d k v : String,
      extractTagsDesc (mkItemWithTags [mkTagGroup d
        [.obj [("descriptor", .obj []), ("value", .str v)],
         .obj [("descriptor", .obj [("description", .str k)])]]]) = .ok []) ∧
    (∀ d k v1 v2 : String, d ≠ "" → k ≠ "" → v1 ≠ "" → v2 ≠ "" →
      extractTagsDesc (mkFix [(d, [(k, v1), (k, v2)])]) =
        .ok [(d, .obj [(k, .str v2)])]) ∧
    (∀ gs : List (String × List (String × String)),
      gs.Pairwise (fun a b => a.1 ≠ b.1) →
      (∀ g ∈ gs, g.1 ≠ "") →
      (∀ g ∈ gs, ∃ e ∈ g.2, e.1 ≠ "" ∧ e.2 ≠ "") →
      extractTagsDesc (mkFix gs) =
        .ok (gs.map fun g => (g.1, PyValue.obj (innerFoldFrom [] g.2))) ∧
      (gs.map fun g => (g.1, PyValue.obj (innerFoldFrom [] g.2))).length = gs.length ∧
      ∀ g ∈ gs, (innerFoldFrom [] g.2).length ≤ g.2.length) := by
  have h0 : ("" : String).isEmpty = true := rfl
  refine ⟨fun c entries => rfl, ?_, ?_, ?_, ?_⟩
  · intro d k v hd hk hv
    have hdf := str_isEmpty_false hd
    have hkf := str_isEmpty_false hk
    have hvf := str_isEmpty_false hv
    simp [extractTagsDesc, mkItemWithTags, mkTagGroup, mkTagEntryC,
      tagGroupStepDesc, tagEntryStepDesc, pyGetD, pyGet, pyIter, assocLookup,
      PyValue.truthy, py_bind_ok, py_pure_eq, pyKeyToString, assocSet,
      h0, hdf, hkf, hvf]
  · intro d k v
    by_cases hd : d = ""
    · subst hd
      simp [extractTagsDesc, mkItemWithTags, mkTagGroup, tagGroupStepDesc,
        tagEntryStepDesc, pyGetD, pyGet, pyIter, assocLookup,
        PyValue.truthy, py_bind_ok, py_pure_eq, h0]
    · have hdf := str_isEmpty_false hd
      by_cases hv : v = ""
      · subst hv
        simp [extractTagsDesc, mkItemWithTags, mkTagGroup, tagGroupStepDesc,
          tagEntryStepDesc, pyGetD, pyGet, pyIter, assocLookup,
          PyValue.truthy, py_bind_ok, py_pure_eq, h0, hdf]
      · have hvf := str_isEmpty_false hv
        simp [extractTagsDesc, mkItemWithTags, mkTagGroup, tagGroupStepDesc,
          tagEntryStepDesc, pyGetD, pyGet, pyIter, assocLookup,
          PyValue.truthy, py_bind_ok, py_pure_eq, h0, hdf, hvf]
  · intro d k v1 v2 hd hk hv1 hv2
    rw [extractTagsDesc_fix]
    have hinner : innerFoldFrom [] [(k, v1), (k, v2)] = [(k, .str v2)] := by
      simp [innerFoldFrom, assocSet, hk, hv1, hv2]
    simp [outerFoldFrom, hinner, assocSet, hd]
  · intro gs hpw hne hval
    have hin : ∀ g ∈ gs, innerFoldFrom [] g.2 ≠ [] :=
      fun g hg => innerFoldFrom_ne_nil g.2 (hval g hg)
    refine ⟨?_, by simp, fun g hg => by
      simpa using innerFoldFrom_length_le g.2 []⟩
    rw [extractTagsDesc_fix,
      outerFold_map gs [] hpw hne hin (fun g _ => rfl)]
    simp

/-- Witness for C4: a two-group fixture with a duplicate inner key in the
first group, instantiating the amended theorem's quantified parts. -/
theorem C4_amended_tag_extraction_witness :
    extractTagsDesc (mkItemWithTags [mkTagGroup "Group A" [mkTagEntryC "K1" "V1"]]) =
      .ok [("Group A", .obj [("K1", .str "V1")])] ∧
    extractTagsDesc (mkFix [("Group A", [("K", "V1"), ("K", "V2")])]) =
      .ok [("Group A", .obj [("K", .str "V2")])] ∧
    extractTagsDesc (mkFix [("Group A", [("K", "V1"), ("K", "V2")]),
        ("Group B", [("X", "Y"), ("W", "Z")])]) =
      .ok [("Group A", .obj [("K", .str "V2")]),
        ("Group B", .obj [("X", .str "Y"), ("W", .str "Z")])] := by
  have h := C4_amended_tag_extraction
  refine ⟨h.2.1 "Group A" "K1" "V1" (by decide) (by decide) (by decide),
    h.2.2.2.1 "Group A" "K" "V1" "V2" (by decide) (by decide) (by decide) (by decide),
    ?_⟩
  have h5 := (h.2.2.2.2 [("Group A", [("K", "V1"), ("K", "V2")]),
      ("Group B", [("X", "Y"), ("W", "Z")])]
    (by simp) (by simp)
    (by intro g hg
        simp only [List.mem_cons, List.not_mem_nil, or_false] at hg
        rcases hg with rfl | rfl
        · exact ⟨("K", "V1"), by simp⟩
        · exact ⟨("X", "Y"), by simp⟩)).1
  rw [h5]
  simp [innerFoldFrom, assocSet]

/-- Does an extraction return normally? -/
def pyOk (r : Py (List PyValue)) : Bool :=
  match r with
  | .ok _ => true
  | .error _ => false

/-- A well-shaped catalog whose provider offers one item but has an empty
`fulfillments` list; the item's price is a plain numeric string. -/
def c10Input : PyValue :=
  .obj [("responses", .arr [.obj [("message", .obj [("catalog", .obj
    [("providers", .arr [.obj [("id", .str "prov-1"),
      ("descriptor", .obj [("name", .str "SunPower Co")]),
      ("items", .arr [.obj [("id", .str "item-1"),
        ("descriptor", .obj [("name", .str "Residential Solar Kit")]),
        ("price", .obj [("value", .str "0.18")])]]),
      ("fulfillments", .arr [])]])])])]])]

/-- C10 counterexample: the claim's side assertion that the other catalog
extractors are total over all dictionary-shaped inputs is false — the
`utils.py` trading extractor raises `ValueError` on a dictionary-shaped
catalog whose price string is non-numeric. -/
theorem C10_counterexample_trading_not_total :
    extract_energy_trading_opportunities
      (mkTradingCatalog [mkPricedItem (.str "abc")]) = .error .valueError := by
  rfl

/-- C10 amended: on a well-shaped catalog whose provider has a non-empty
items list but an empty fulfillments list, `extract_subsidies_from_response`
raises `IndexError` through its unconditional `[0]` on the provider's
fulfillments, while the four other catalog extractors return normally on
the same input (their own partiality lies elsewhere, e.g. the trading
extractor's price conversion). -/
theorem C10_amended_subsidies_raises_on_empty_fulfillments :
    extract_subsidies_from_response c10Input = .error .indexError ∧
    pyOk (extract_installers_from_response c10Input) = true ∧
    pyOk (extract_energy_programs_from_response c10Input) = true ∧
    pyOk (extract_energy_trading_opportunities c10Input) = true ∧
    pyOk (extract_energy_trading_opportunities_api c10Input) = true := by
  exact ⟨rfl, rfl, rfl, rfl, rfl⟩

/-- Projection: the named field of a result record. -/
def resField (k : String) (r : PyValue) : Option PyValue :=
  match r with
  | .obj kvs => assocLookup kvs k
  | _ => none

/-- A one-user state whose auto-trading settings set only
`min_sell_price_kwh`. -/
def stWithSell (q : ℚ) : AgentState :=
  [("u1", { emptyUserState with auto_trading :=
    { min_sell_price_kwh := some q, max_buy_price_kwh := none,
      token_rewards := false } })]

/-- A one-user state whose auto-trading settings set only
`max_buy_price_kwh`. -/
def stWithBuy (q : ℚ) : AgentState :=
  [("u1", { emptyUserState with auto_trading :=
    { min_sell_price_kwh := none, max_buy_price_kwh := some q,
      token_rewards := false } })]

/-- C8: the trade-execution operations clamp the unit price exactly as
claimed — grid sale `max(0.18, min_sell)`, grid purchase
`min(0.10, max_buy)`, p2p sharing `max(0.15, 0.9 * min_sell)` — and on the
claim's instances: `min_sell = 0.12` with a 5.0 kWh sale gives
`price_per_kwh = 0.18` and `total_amount_usd = 0.90`; `max_buy = 0.09`
gives a purchase `price_per_kwh = 0.09`.  Floats are modelled as exact
rationals. -/
theorem C8_trade_price_clamps :
    (∀ q amount : ℚ, resField "price_per_kwh"
      (execute_grid_sale (stWithSell q) "u1" amount .null (.obj []) 1000 "t").1 =
      some (.num (max (18/100) q))) ∧
    (∀ q amount : ℚ, resField "price_per_kwh"
      (execute_grid_purchase (stWithBuy q) "u1" amount .null (.obj []) 1000 "t").1 =
      some (.num (min (10/100) q))) ∧
    (∀ q amount : ℚ, resField "price_per_kwh"
      (execute_p2p_sharing (stWithSell q) "u1" amount .null (.obj []) 1000 4321 "t").1 =
      some (.num (max (15/100) (q * (9/10))))) ∧
    resField "price_per_kwh"
      (execute_grid_sale (stWithSell (12/100)) "u1" 5 .null (.obj []) 1000 "t").1 =
      some (.num (18/100)) ∧
    resField "total_amount_usd"
      (execute_grid_sale (stWithSell (12/100)) "u1" 5 .null (.obj []) 1000 "t").1 =
      some (.num (9/10)) ∧
    resField "price_per_kwh"
      (execute_grid_purchase (stWithBuy (9/100)) "u1" 5 .null (.obj []) 1000 "t").1 =
      some (.num (9/100)) := by
  refine ⟨fun q amount => rfl, fun q amount => rfl, fun q amount => rfl, ?_, ?_, ?_⟩
  · have h : resField "price_per_kwh"
        (execute_grid_sale (stWithSell (12/100)) "u1" 5 .null (.obj []) 1000 "t").1 =
        some (.num (max (18/100) (12/100))) := rfl
    rw [h]
    norm_num
  · have h : resField "total_amount_usd"
        (execute_grid_sale (stWithSell (12/100)) "u1" 5 .null (.obj []) 1000 "t").1 =
        some (.num (pyRound 2 (5 * max (18/100) (12/100)))) := rfl
    rw [h]
    norm_num [pyRound, roundHalfEven]
  · have h : resField "price_per_kwh"
        (execute_grid_purchase (stWithBuy (9/100)) "u1" 5 .null (.obj []) 1000 "t").1 =
        some (.num (min (10/100) (9/100))) := rfl
    rw [h]
    norm_num

theorem stLookup_stSet_self (st : AgentState) (u : String) (v : UserState) :
    stLookup (stSet st u v) u = some v := by
  induction st with
  | nil => simp [stSet, stLookup]
  | cons p rest ih =>
    simp only [stSet]
    by_cases h : p.1 = u
    · rw [if_pos h]; simp [stLookup]
    · rw [if_neg h]
      simp only [stLookup, if_neg h]
      exact ih

/-- The transaction id the trade operations derive from an extracted
order dict: the order's truthy `id` when the order is truthy and carries
one, otherwise the synthesized fallback. -/
def txnOf (okvs : List (String × PyValue)) (synth : String) : PyValue :=
  if (PyValue.obj okvs).truthy then
    match assocLookup okvs "id" with
    | some idv => if idv.truthy then idv else .str synth
    | none => .str synth
  else .str synth

theorem truthy_obj (kvs : List (String × PyValue)) :
    (PyValue.obj kvs).truthy = !kvs.isEmpty := rfl

theorem truthy_null : PyValue.null.truthy = false := rfl

theorem truthy_str (s : String) : (PyValue.str s).truthy = !s.isEmpty := rfl

theorem truthy_arr (l : List PyValue) : (PyValue.arr l).truthy = !l.isEmpty := rfl

theorem gridSale_appends (st : AgentState) (user : String) (amount : ℚ)
    (tradeResp : PyValue) (okvs : List (String × PyValue)) (ts : Nat)
    (iso : String) (u0 : UserState) (hu : stLookup st user = some u0)
    (hex : extract_order_details tradeResp = .ok (.obj okvs)) :
    (get_state (execute_grid_sale st user amount .null tradeResp ts iso).2
        user).transactions = u0.transactions ++
      [(execute_grid_sale st user amount .null tradeResp ts iso).1] ∧
    (get_state (execute_grid_sale st user amount .null tradeResp ts iso).2
        user).total_earnings = u0.total_earnings + pyRound 2 (amount *
      max (18/100) (u0.auto_trading.min_sell_price_kwh.getD (12/100))) ∧
    resField "status"
      (execute_grid_sale st user amount .null tradeResp ts iso).1 =
      some (.str "completed") ∧
    resField "transaction_id"
      (execute_grid_sale st user amount .null tradeResp ts iso).1 =
      some (txnOf okvs ("grid-" ++ user.take 4 ++ "-" ++ toString ts)) := by
  have hgoto : get_energy_trading_opportunities st user .null =
      (placeholderOpportunities,
        stSet st user { u0 with trading_opportunities := placeholderOpportunities }) := by
    simp [get_energy_trading_opportunities, hu,
      show extract_energy_trading_opportunities .null = .ok [] from rfl]
  cases htr : u0.auto_trading.token_rewards <;>
  cases hemp : okvs.isEmpty <;>
  rcases hid : assocLookup okvs "id" with _ | idv <;>
  first
    | (refine ⟨?_, ?_, ?_, ?_⟩ <;>
        (simp [execute_grid_sale, hgoto, hu, gridSaleRest, hex, htr, hemp, hid,
          txnOf, placeholderOpportunities, pyIndex, pySubscript, pyGet, pyGetD,
          truthy_obj, truthy_null, truthy_str, truthy_arr, py_bind_ok,
          py_pure_eq, stLookup_stSet_self, resField, assocLookup, get_state,
          create_energy_nft]; done))
    | (cases hidt : idv.truthy <;> (refine ⟨?_, ?_, ?_, ?_⟩ <;>
        (simp [execute_grid_sale, hgoto, hu, gridSaleRest, hex, htr, hemp, hid,
          hidt, txnOf, placeholderOpportunities, pyIndex, pySubscript, pyGet,
          pyGetD, truthy_obj, truthy_null, truthy_str, truthy_arr, py_bind_ok,
          py_pure_eq, stLookup_stSet_self, resField, assocLookup, get_state,
          create_energy_nft]; done)))

theorem gridPurchase_appends (st : AgentState) (user : String) (amount : ℚ)
    (tradeResp : PyValue) (okvs : List (String × PyValue)) (ts : Nat)
    (iso : String) (u0 : UserState) (hu : stLookup st user = some u0)
    (hex : extract_order_details tradeResp = .ok (.obj okvs)) :
    (get_state (execute_grid_purchase st user amount .null tradeResp ts iso).2
        user).transactions = u0.transactions ++
      [(execute_grid_purchase st user amount .null tradeResp ts iso).1] ∧
    (get_state (execute_grid_purchase st user amount .null tradeResp ts iso).2
        user).total_costs = u0.total_costs + pyRound 2 (amount *
      min (10/100) (u0.auto_trading.max_buy_price_kwh.getD (8/100))) ∧
    resField "status"
      (execute_grid_purchase st user amount .null tradeResp ts iso).1 =
      some (.str "completed") ∧
    resField "transaction_id"
      (execute_grid_purchase st user amount .null tradeResp ts iso).1 =
      some (txnOf okvs ("buy-" ++ user.take 4 ++ "-" ++ toString ts)) := by
  have hgoto : get_energy_trading_opportunities st user .null =
      (placeholderOpportunities,
        stSet st user { u0 with trading_opportunities := placeholderOpportunities }) := by
    simp [get_energy_trading_opportunities, hu,
      show extract_energy_trading_opportunities .null = .ok [] from rfl]
  cases hemp : okvs.isEmpty <;>
  rcases hid : assocLookup okvs "id" with _ | idv <;>
  first
    | (refine ⟨?_, ?_, ?_, ?_⟩ <;>
        (simp [execute_grid_purchase, hgoto, hu, gridPurchaseRest, hex, hemp,
          hid, txnOf, placeholderOpportunities, pyIndex, pySubscript, pyGet,
          pyGetD, truthy_obj, truthy_null, truthy_str, truthy_arr, py_bind_ok,
          py_pure_eq, stLookup_stSet_self, resField, assocLookup, get_state];
          done))
    | (cases hidt : idv.truthy <;> (refine ⟨?_, ?_, ?_, ?_⟩ <;>
        (simp [execute_grid_purchase, hgoto, hu, gridPurchaseRest, hex, hemp,
          hid, hidt, txnOf, placeholderOpportunities, pyIndex, pySubscript,
          pyGet, pyGetD, truthy_obj, truthy_null, truthy_str, truthy_arr,
          py_bind_ok, py_pure_eq, stLookup_stSet_self, resField, assocLookup,
          get_state]; done)))

set_option maxHeartbeats 2000000 in
theorem p2pSharing_appends (st : AgentState) (user : String) (amount : ℚ)
    (tradeResp : PyValue) (okvs : List (String × PyValue)) (ts rnd : Nat)
    (iso : String)
    (hex : extract_order_details tradeResp = .ok (.obj okvs)) :
    (get_state (execute_p2p_sharing st user amount .null tradeResp ts rnd iso).2
        user).transactions = (get_state st user).transactions ++
      [(execute_p2p_sharing st user amount .null tradeResp ts rnd iso).1] ∧
    (get_state (execute_p2p_sharing st user amount .null tradeResp ts rnd iso).2
        user).total_earnings = (get_state st user).total_earnings +
      pyRound 2 (amount * max (15/100)
        ((get_state st user).auto_trading.min_sell_price_kwh.getD (12/100) * (9/10))) ∧
    resField "status"
      (execute_p2p_sharing st user amount .null tradeResp ts rnd iso).1 =
      some (.str "completed") ∧
    resField "transaction_id"
      (execute_p2p_sharing st user amount .null tradeResp ts rnd iso).1 =
      some (txnOf okvs ("p2p-" ++ user.take 4 ++ "-" ++ toString ts)) := by
  have hgoto : get_energy_trading_opportunities st user .null =
      (placeholderOpportunities,
        stSet st user { get_state st user with
          trading_opportunities := placeholderOpportunities }) := by
    cases h : stLookup st user <;>
      simp [get_energy_trading_opportunities, get_state, h,
        show extract_energy_trading_opportunities .null = .ok [] from rfl]
  cases htr : (get_state st user).auto_trading.token_rewards <;>
  simp only [get_state] at htr <;>
  cases hemp : okvs.isEmpty <;>
  rcases hid : assocLookup okvs "id" with _ | idv <;>
  first
    | (refine ⟨?_, ?_, ?_, ?_⟩ <;>
        (simp [execute_p2p_sharing, hgoto, p2pSharingRest, hex, htr, hemp, hid,
          txnOf, placeholderOpportunities, pyIndex, pySubscript, pyGet, pyGetD,
          pyEqStr, List.filterM, truthy_obj, truthy_null, truthy_str,
          truthy_arr, py_bind_ok, py_pure_eq, stLookup_stSet_self, resField,
          assocLookup, get_state, create_energy_nft]; done))
    | (cases hidt : idv.truthy <;> (refine ⟨?_, ?_, ?_, ?_⟩ <;>
        (simp [execute_p2p_sharing, hgoto, p2pSharingRest, hex, htr, hemp, hid,
          hidt, txnOf, placeholderOpportunities, pyIndex, pySubscript, pyGet,
          pyGetD, pyEqStr, List.filterM, truthy_obj, truthy_null, truthy_str,
          truthy_arr, py_bind_ok, py_pure_eq, stLookup_stSet_self, resField,
          assocLookup, get_state, create_energy_nft]; done)))

/-- C9 counterexample: a successful grid sale for a user with no entry in
the agent's state map appends nothing anywhere.  Here the internal
trading-opportunity lookup fails (non-numeric price in the search
response), so no step creates the user's entry: the sale still returns
`status = "completed"`, but the final state is unchanged and empty — no
transaction log was written and no total was updated. -/
theorem C9_counterexample_sale_skips_log :
    (execute_grid_sale [] "alice" 5
      (mkTradingCatalog [mkPricedItem (.str "bogus")])
      (.obj []) 1700000000 "ts").2 = ([] : AgentState) ∧
    resField "status" (execute_grid_sale [] "alice" 5
      (mkTradingCatalog [mkPricedItem (.str "bogus")])
      (.obj []) 1700000000 "ts").1 = some (.str "completed") :=
  ⟨rfl, rfl⟩

/-- C9 amended: each successful trade execution derives its transaction id
from the extracted order's truthy `id`, falling back to a synthesized
`<prefix>-<user id prefix>-<timestamp>` id; provided the user already has
an entry in the agent state map, grid sale and grid purchase append the
result record to that user's transactions and add its total to
`total_earnings` (sale) or `total_costs` (purchase); p2p sharing appends
and adds to `total_earnings` for every user, present or not, because its
community-score write creates the entry first.  When the user has no
entry and nothing created one, grid sale and purchase return the
completed result without logging it (see the counterexample). -/
theorem C9_amended_trade_logging (st : AgentState) (user : String)
    (amount : ℚ) (tradeResp : PyValue) (okvs : List (String × PyValue))
    (ts rnd : Nat) (iso : String) (u0 : UserState)
    (hu : stLookup st user = some u0)
    (hex : extract_order_details tradeResp = .ok (.obj okvs)) :
    ((get_state (execute_grid_sale st user amount .null tradeResp ts iso).2
        user).transactions = u0.transactions ++
      [(execute_grid_sale st user amount .null tradeResp ts iso).1] ∧
    (get_state (execute_grid_sale st user amount .null tradeResp ts iso).2
        user).total_earnings = u0.total_earnings + pyRound 2 (amount *
      max (18/100) (u0.auto_trading.min_sell_price_kwh.getD (12/100))) ∧
    resField "status"
      (execute_grid_sale st user amount .null tradeResp ts iso).1 =
      some (.str "completed") ∧
    resField "transaction_id"
      (execute_grid_sale st user amount .null tradeResp ts iso).1 =
      some (txnOf okvs ("grid-" ++ user.take 4 ++ "-" ++ toString ts))) ∧
    ((get_state (execute_grid_purchase st user amount .null tradeResp ts iso).2
        user).transactions = u0.transactions ++
      [(execute_grid_purchase st user amount .null tradeResp ts iso).1] ∧
    (get_state (execute_grid_purchase st user amount .null tradeResp ts iso).2
        user).total_costs = u0.total_costs + pyRound 2 (amount *
      min (10/100) (u0.auto_trading.max_buy_price_kwh.getD (8/100))) ∧
    resField "status"
      (execute_grid_purchase st user amount .null tradeResp ts iso).1 =
      some (.str "completed") ∧
    resField "transaction_id"
      (execute_grid_purchase st user amount .null tradeResp ts iso).1 =
      some (txnOf okvs ("buy-" ++ user.take 4 ++ "-" ++ toString ts))) ∧
    (∀ (st2 : AgentState) (user2 : String),
      (get_state (execute_p2p_sharing st2 user2 amount .null tradeResp ts rnd iso).2
          user2).transactions = (get_state st2 user2).transactions ++
        [(execute_p2p_sharing st2 user2 amount .null tradeResp ts rnd iso).1] ∧
      (get_state (execute_p2p_sharing st2 user2 amount .null tradeResp ts rnd iso).2
          user2).total_earnings = (get_state st2 user2).total_earnings +
        pyRound 2 (amount * max (15/100)
          ((get_state st2 user2).auto_trading.min_sell_price_kwh.getD (12/100) * (9/10))) ∧
      resField "status"
        (execute_p2p_sharing st2 user2 amount .null tradeResp ts rnd iso).1 =
        some (.str "completed") ∧
      resField "transaction_id"
        (execute_p2p_sharing st2 user2 amount .null tradeResp ts rnd iso).1 =
        some (txnOf okvs ("p2p-" ++ user2.take 4 ++ "-" ++ toString ts))) :=
  ⟨gridSale_appends st user amount tradeResp okvs ts iso u0 hu hex,
   gridPurchase_appends st user amount tradeResp okvs ts iso u0 hu hex,
   fun st2 user2 =>
     p2pSharing_appends st2 user2 amount tradeResp okvs ts rnd iso hex⟩

/-- A trade-init response carrying an order id. -/
def tradeRespW : PyValue :=
  .obj [("responses", .arr [.obj [("message", .obj
    [("order", .obj [("id", .str "ord-77")])])]])]

/-- Witness for C9: a present user logging a sale under the order's id,
and an absent user whose p2p share is still logged. -/
theorem C9_amended_trade_logging_witness :
    resField "transaction_id"
      (execute_grid_sale [("bob", emptyUserState)] "bob" 5 .null tradeRespW
        1000 "t").1 = some (.str "ord-77") ∧
    (get_state (execute_grid_sale [("bob", emptyUserState)] "bob" 5 .null
        tradeRespW 1000 "t").2 "bob").transactions =
      [(execute_grid_sale [("bob", emptyUserState)] "bob" 5 .null tradeRespW
        1000 "t").1] ∧
    (get_state (execute_p2p_sharing [] "carol" 5 .null tradeRespW 1000 4321
        "t").2 "carol").transactions =
      [(execute_p2p_sharing [] "carol" 5 .null tradeRespW 1000 4321 "t").1] := by
  have h := C9_amended_trade_logging [("bob", emptyUserState)] "bob" 5
    tradeRespW [("id", .str "ord-77")] 1000 4321 "t" emptyUserState rfl rfl
  refine ⟨?_, ?_, ?_⟩
  · have := h.1.2.2.2
    rwa [show txnOf [("id", .str "ord-77")]
      ("grid-" ++ "bob".take 4 ++ "-" ++ toString 1000) = .str "ord-77" from rfl]
      at this
  · have := h.1.1
    simpa [emptyUserState] using this
  · have := (h.2.2 [] "carol").1
    simpa [get_state, stLookup, emptyUserState] using this
